import Mathlib

/-!
Verification model of the uavBuilder design-space explorer.

Each definition below is a shallow embedding of a function or class of the
Python source: `uav_parameters.py` (LogScaledParameter), `lipo.py` (Battery),
`edf_config.py` (EDF, Aircraft, design_from_mission), `edf_speed.py`
(estimate_modified_cruise_speed), `edf_mission.py` (FlightPath and the mission
simulator), `edf_uav_opt_test.py` (the staged fitness functions) together with
the helpers they call from `power_required.py` and `parasitic_drag.py`.

Python floats are modelled as exact numbers: by ℚ where the code uses only
field arithmetic (score, the fitness functions) and by ℝ where it uses
exp/log/sqrt/fractional powers.  A Python function that can raise is modelled
as `Except String _` (an `Except.error` is a raised exception) or as `Option`
where only one failure is possible; an unbounded `while` loop is modelled with
an explicit fuel argument large enough that, on the runs the theorems speak
about, the loop always stops on its own condition first.
-/

noncomputable section

namespace UAV

/-! ### `LogScaledParameter.score` (uav_parameters.py, lines 86-120)

The method reads `self.min_val` and `self.max_val`; here they are the first
two arguments.  All arithmetic is rational, so the embedding is over ℚ. -/

/-- `LogScaledParameter.score(actual_value)`: a scalar-target branch for
`min_val == max_val`, ratio penalties outside the range, and a triangular
score, clamped at zero, inside the range. -/
def score (min_val max_val actual_value : ℚ) : ℚ :=
  if min_val = max_val then
    if actual_value ≤ 0 ∨ min_val ≤ 0 then 0
    else min actual_value min_val / max actual_value min_val
  else if actual_value < min_val then actual_value / min_val
  else if max_val < actual_value then max_val / actual_value
  else
    let center_value := (min_val + max_val) / 2
    let max_distance_from_center := (max_val - min_val) / 2
    if max_distance_from_center ≤ 0 then 1
    else max 0 (1 - |actual_value - center_value| / max_distance_from_center)

/-! ### `LogScaledParameter` percent/value conversions (uav_parameters.py, lines 38-73)

The stored state of the class is `_percent`; the `value` getter and setter
are pure functions of `(min_val, max_val)` and of that state resp. a new
physical value.  The setters raise `ValueError` on out-of-range input, modelled
by `Except.error`.  These use `log`/`exp`, so they live over ℝ. -/

/-- The `value` property getter: linear interpolation in log space. -/
def lsp_value (min_val max_val percent : ℝ) : ℝ :=
  Real.exp (Real.log min_val + percent / 100 * (Real.log max_val - Real.log min_val))

/-- The `value` property setter: range-checks the new value (raising
`ValueError` otherwise) and returns the new stored `_percent`.  A zero
interpolation denominator (`min_val = max_val`) raises Python's
`ZeroDivisionError`. -/
def lsp_set_value (min_val max_val new_val : ℝ) : Except String ℝ :=
  if min_val ≤ new_val ∧ new_val ≤ max_val then
    if Real.log max_val - Real.log min_val = 0 then
      Except.error "ZeroDivisionError"
    else
      Except.ok (100 * (Real.log new_val - Real.log min_val) /
        (Real.log max_val - Real.log min_val))
  else Except.error "value outside the allowed range"

/-- The `percent` property setter: rejects percentages outside `[0, 100]`. -/
def lsp_set_percent (new_percent : ℝ) : Except String ℝ :=
  if 0 ≤ new_percent ∧ new_percent ≤ 100 then Except.ok new_percent
  else Except.error "Percentage must be between 0 and 100."

/-! ### `Battery` (lipo.py) -/

/-- The attributes a `Battery` instance carries after `__init__`. -/
structure Battery where
  weight_kg : ℝ
  c_rating : ℝ
  energy_wh : ℝ
  voltage : ℝ
  capacity_ah : ℝ
  max_power_w : ℝ
  total_energy_j : ℝ

/-- `Battery.__init__(weight_kg, c_rating, energy_wh, voltage, _, num_batteries)`:
weight and energy scale with the pack count, and the derived attributes follow
the source formulas (`max_power_w = energy_wh * c_rating`, etc.). -/
def Battery.make (weight_kg c_rating energy_wh voltage num_batteries : ℝ) : Battery :=
  { weight_kg := weight_kg * num_batteries
    c_rating := c_rating
    energy_wh := energy_wh * num_batteries
    voltage := voltage
    capacity_ah := if 0 < voltage then energy_wh * num_batteries / voltage else 0
    max_power_w := energy_wh * num_batteries * c_rating
    total_energy_j := energy_wh * num_batteries * 3600 }

/-- `Battery.check_power_output(required_power_w)` (lipo.py lines 25-28):
raises `ValueError` when `max_power_w < required_power_w * 1.2`. -/
def Battery.check_power_output (b : Battery) (required_power_w : ℝ) : Except String Unit :=
  if b.max_power_w < required_power_w * 1.2 then
    Except.error "Battery cannot supply peak power."
  else Except.ok ()

/-! ### `EDF` (edf_config.py, lines 17-35) -/

/-- The attributes of an `EDF` instance (the display-only `name` string is
omitted). -/
structure EDF where
  power_w : ℝ
  static_thrust_n : ℝ
  weight_kg : ℝ
  diameter_m : ℝ

/-- `self.design_speed_mps = 25 + (self.power_w / 150)`, set in `__init__`. -/
def EDF.design_speed_mps (e : EDF) : ℝ := 25 + e.power_w / 150

/-- `EDF.from_power(power_w)`: the empirical power-law fits. -/
def EDF.from_power (power_w : ℝ) : EDF :=
  { power_w := power_w
    static_thrust_n := 0.7 * power_w ^ (0.88 : ℝ)
    weight_kg := 0.05 + 0.020 * power_w ^ (0.75 : ℝ)
    diameter_m := 0.03 * power_w ^ (0.44 : ℝ) }

/-- `EDF.get_propulsive_efficiency(tas_mps)`: bell curve around the design
speed, floored at 0.1. -/
def EDF.get_propulsive_efficiency (e : EDF) (tas_mps : ℝ) : ℝ :=
  let speed_ratio := tas_mps / e.design_speed_mps
  max 0.1 (0.70 * Real.exp (-((speed_ratio - 1) ^ 2) / 0.8))

/-! ### `FixedWingParameters` and `estimate_modified_cruise_speed`

Of the five `LogScaledParameter` slots of `FixedWingParameters`, the aircraft
model reads only `params.endurance.percent`; the structure carries exactly
that state. -/

/-- The slice of `FixedWingParameters` the aircraft model reads:
`params.endurance.percent`. -/
structure FixedWingParameters where
  endurance_percent : ℝ

/-- `estimate_modified_cruise_speed(power_w, params)` (edf_speed.py).
`np.clip(p, 200, 20000)` is `min (max p 200) 20000`, `np.log10` is
`Real.logb 10`. -/
def estimate_modified_cruise_speed (power_w : ℝ) (params : FixedWingParameters) : ℝ :=
  let clipped_power_w := min (max power_w 200) 20000
  let base_speed_kts := 0.19815 * clipped_power_w ^ (0.6246 : ℝ)
  let size_penalty_factor := 1.0 - 0.10 * Real.logb 10 (max 1 (clipped_power_w / 1000.0))
  let speed_factor := 1.0 - (params.endurance_percent / 100.0) * (1.0 - 0.35)
  base_speed_kts * speed_factor * size_penalty_factor

/-! ### `Aircraft` (edf_config.py, lines 37-119) -/

/-- The attributes of an `Aircraft` after a successful `__init__`. -/
structure Aircraft where
  edf : EDF
  battery : Battery
  params : FixedWingParameters
  airframe_weight_kg : ℝ
  payload_weight_kg : ℝ
  mtow_kg : ℝ
  weight_n : ℝ
  thrust_to_weight : ℝ
  ld : ℝ
  cruise_ias_kts : ℝ
  cruise_ias_mps : ℝ
  wing_area_m2 : ℝ
  stall_speed_ias_mps : ℝ
  vr_ias_mps : ℝ
  vy_ias_mps : ℝ
  best_glide_ias_mps : ℝ
  rate_of_climb_fpm : ℝ
  cruise_power_percent : ℝ

/-- The derived fields `Aircraft.__init__` computes once the battery power
check has passed (including `calculate_rate_of_climb`).  The source attributes
`thrust_to_weight_ratio` and `ld_ratio` are shortened to `thrust_to_weight`
and `ld` here. -/
def aircraftOf (edf : EDF) (battery : Battery) (params : FixedWingParameters) : Aircraft :=
  let power_system_weight := edf.weight_kg + battery.weight_kg
  let airframe_weight_kg := 0.4 + power_system_weight * 0.8
  let empty_weight_kg := edf.weight_kg + battery.weight_kg + airframe_weight_kg
  let payload_weight_kg := 0.20 * (edf.power_w / 100)
  let mtow_kg := empty_weight_kg + payload_weight_kg
  let weight_n := mtow_kg * 9.80665
  let ld := 7.0 + (params.endurance_percent / 100.0) * 5.0
  let cruise_ias_kts := estimate_modified_cruise_speed edf.power_w params
  let cruise_ias_mps := cruise_ias_kts * 0.514444
  let wing_area_m2 := (2 * weight_n) / (1.225 * cruise_ias_mps ^ 2 * 0.4)
  let stall_speed_ias_mps := Real.sqrt ((2 * weight_n) / (1.225 * wing_area_m2 * 1.5))
  let vr_ias_mps := stall_speed_ias_mps * 1.10
  let vy_ias_mps := stall_speed_ias_mps * 1.20
  let best_glide_ias_mps := stall_speed_ias_mps * 1.31
  -- calculate_rate_of_climb (lines 93-119)
  let power_available_climb := edf.power_w * edf.get_propulsive_efficiency vy_ias_mps
  let d_min_n := weight_n / ld
  let v_climb := if 0 < best_glide_ias_mps then vy_ias_mps / best_glide_ias_mps else 1
  let drag_at_vy := d_min_n * 0.5 * (v_climb ^ 2 + (1 / v_climb) ^ 2)
  let power_required_climb := drag_at_vy * vy_ias_mps
  let rate_of_climb_fpm :=
    max 0 ((power_available_climb - power_required_climb) / weight_n * 196.85)
  -- cruise power percentage (lines 74-76)
  let power_required_aero_cruise := (weight_n / ld) * cruise_ias_mps
  let power_required_elec_cruise :=
    power_required_aero_cruise / edf.get_propulsive_efficiency cruise_ias_mps
  { edf := edf
    battery := battery
    params := params
    airframe_weight_kg := airframe_weight_kg
    payload_weight_kg := payload_weight_kg
    mtow_kg := mtow_kg
    weight_n := weight_n
    thrust_to_weight := edf.static_thrust_n / weight_n
    ld := ld
    cruise_ias_kts := cruise_ias_kts
    cruise_ias_mps := cruise_ias_mps
    wing_area_m2 := wing_area_m2
    stall_speed_ias_mps := stall_speed_ias_mps
    vr_ias_mps := vr_ias_mps
    vy_ias_mps := vy_ias_mps
    best_glide_ias_mps := best_glide_ias_mps
    rate_of_climb_fpm := rate_of_climb_fpm
    cruise_power_percent := power_required_elec_cruise / edf.power_w * 100 }

/-- `Aircraft.__init__`: `self.battery.check_power_output(self.edf.power_w)`
is the first statement, before any derived field is computed; if it raises,
no aircraft is produced. -/
def mkAircraft (edf : EDF) (battery : Battery) (params : FixedWingParameters) :
    Except String Aircraft :=
  match battery.check_power_output edf.power_w with
  | Except.error e => Except.error e
  | Except.ok _ => Except.ok (aircraftOf edf battery params)

/-! ### `Aircraft.design_from_mission` (edf_config.py, lines 121-168)

The loop is unrolled into: the quantities fixed before the loop
(`dfm_notional_power`, `dfm_cruise_ias_mps`, `dfm_propulsive_eff`), the
per-iteration motor sizing (`dfm_required_power`), the aircraft built at a
guess (`dfm_aircraft`, whose MTOW is `dfm_step`), the sequence of damped
guesses (`dfm_guess`), and the 15-iteration loop itself (`dfm_loop`, which
also counts the iterations it executed). -/

/-- The `rules` dictionary: the model reads only `rules["cruise_power_target"]`. -/
structure Rules where
  cruise_power_target : ℝ

/-- `representative_notional_power` (line 135). -/
def dfm_notional_power (rules : Rules) (initial_mtow_guess_kg : ℝ) : ℝ :=
  initial_mtow_guess_kg * (if 80 < rules.cruise_power_target then 220 else 150)

/-- The fixed `cruise_ias_mps` established before the loop (lines 136-137). -/
def dfm_cruise_ias_mps (params : FixedWingParameters) (rules : Rules)
    (initial_mtow_guess_kg : ℝ) : ℝ :=
  estimate_modified_cruise_speed (dfm_notional_power rules initial_mtow_guess_kg) params
    * 0.514444

/-- `propulsive_eff_at_cruise`, estimated once with the notional EDF
(lines 141-142). -/
def dfm_propulsive_eff (params : FixedWingParameters) (rules : Rules)
    (initial_mtow_guess_kg : ℝ) : ℝ :=
  (EDF.from_power (dfm_notional_power rules initial_mtow_guess_kg)).get_propulsive_efficiency
    (dfm_cruise_ias_mps params rules initial_mtow_guess_kg)

/-- `required_motor_power_w` computed from the current MTOW guess
(lines 145-154). -/
def dfm_required_power (params : FixedWingParameters) (rules : Rules)
    (initial_mtow_guess_kg mtow_guess_kg : ℝ) : ℝ :=
  let ld := 7.0 + (params.endurance_percent / 100.0) * 5.0
  let power_req_aero := (mtow_guess_kg * 9.80665) / ld
    * dfm_cruise_ias_mps params rules initial_mtow_guess_kg
  let power_req_elec := power_req_aero / dfm_propulsive_eff params rules initial_mtow_guess_kg
  power_req_elec / (rules.cruise_power_target / 100)

/-- `temp_aircraft` built in the iteration whose current guess is
`mtow_guess_kg` (lines 156-159), as a pure value. -/
def dfm_aircraft (params : FixedWingParameters) (rules : Rules) (battery : Battery)
    (initial_mtow_guess_kg mtow_guess_kg : ℝ) : Aircraft :=
  aircraftOf (EDF.from_power (dfm_required_power params rules initial_mtow_guess_kg mtow_guess_kg))
    battery params

/-- `new_mtow_kg` (line 160) as a function of the current guess. -/
def dfm_step (params : FixedWingParameters) (rules : Rules) (battery : Battery)
    (initial_mtow_guess_kg mtow_guess_kg : ℝ) : ℝ :=
  (dfm_aircraft params rules battery initial_mtow_guess_kg mtow_guess_kg).mtow_kg

/-- The sequence of MTOW guesses the loop would traverse: `mtow_guess_kg`
at entry of iteration `k` (line 130 and the 50/50 blend of line 165). -/
def dfm_guess (params : FixedWingParameters) (rules : Rules) (battery : Battery)
    (initial_mtow_guess_kg : ℝ) : ℕ → ℝ
  | 0 => initial_mtow_guess_kg
  | k + 1 =>
    dfm_guess params rules battery initial_mtow_guess_kg k * 0.5 +
      dfm_step params rules battery initial_mtow_guess_kg
        (dfm_guess params rules battery initial_mtow_guess_kg k) * 0.5

/-- The `for i in range(15)` loop (lines 144-168), with the remaining
iteration budget as fuel.  The result is the returned aircraft together with
the number of iterations actually executed; a raised exception (the battery
power check inside `Aircraft.__init__`) is an `Except.error`. -/
def dfm_loop (params : FixedWingParameters) (rules : Rules) (battery : Battery)
    (initial_mtow_guess_kg : ℝ) : ℕ → ℝ → Except String (Aircraft × ℕ)
  | 0, _ => Except.error "iteration budget exhausted"
  | f + 1, mtow_guess_kg =>
    match mkAircraft
        (EDF.from_power (dfm_required_power params rules initial_mtow_guess_kg mtow_guess_kg))
        battery params with
    | Except.error e => Except.error e
    | Except.ok temp_aircraft =>
      if |temp_aircraft.mtow_kg - mtow_guess_kg| / mtow_guess_kg < 0.01 then
        Except.ok (temp_aircraft, 1)
      else if f = 0 then
        -- the 15th iteration fell through: the loop ends and the last
        -- computed aircraft is returned (line 168)
        Except.ok (temp_aircraft, 1)
      else
        match dfm_loop params rules battery initial_mtow_guess_kg f
            (mtow_guess_kg * 0.5 + temp_aircraft.mtow_kg * 0.5) with
        | Except.error e => Except.error e
        | Except.ok (ac, n) => Except.ok (ac, n + 1)

/-- `Aircraft.design_from_mission(params, rules, initial_mtow_guess_kg, battery)`. -/
def design_from_mission (params : FixedWingParameters) (rules : Rules)
    (initial_mtow_guess_kg : ℝ) (battery : Battery) : Except String (Aircraft × ℕ) :=
  dfm_loop params rules battery initial_mtow_guess_kg 15 initial_mtow_guess_kg

/-! ### `FlightPath` and the mission simulator (edf_mission.py)

`G = 9.80665`, `RHO_SL_KGM3 = 1.225`.  The `while` climb loop of Phase 2 is
written with a fuel argument; since every executed step raises the last
altitude by 250 ft and the loop condition requires it below 45000 ft, a fuel
of 200 is never exhausted before the condition fails, and the safety
properties proved below hold for every fuel. -/

/-- The last element of a sample list (`lst[-1]` in the source; the lists the
simulator builds are never empty). -/
def lastD (l : List ℝ) : ℝ := l.getLastD 0

/-- `FlightPath.__init__` state: the five sample lists and the summary
scalars (edf_mission.py lines 14-17). -/
structure FlightPath where
  time_s : List ℝ
  dist_m : List ℝ
  alt_ft : List ℝ
  ias_kts : List ℝ
  battery_pct : List ℝ
  climb_rate_fpm : ℝ
  cruise_power_pct : ℝ
  total_time_min : ℝ
  total_distance_km : ℝ
  max_altitude_ft : ℝ

/-- A freshly constructed `FlightPath`. -/
def FlightPath.init : FlightPath :=
  { time_s := [0], dist_m := [0], alt_ft := [1], ias_kts := [0], battery_pct := [100]
    climb_rate_fpm := 0, cruise_power_pct := 0
    total_time_min := 0, total_distance_km := 0, max_altitude_ft := 0 }

/-- `FlightPath.record_step(dt, dist_step, alt_step, ias, battery_drain)`
(lines 19-22): appends one cumulative sample to each list. -/
def FlightPath.record_step (p : FlightPath)
    (dt dist_step alt_step ias battery_drain : ℝ) : FlightPath :=
  { p with
    time_s := p.time_s ++ [lastD p.time_s + dt]
    dist_m := p.dist_m ++ [lastD p.dist_m + dist_step]
    alt_ft := p.alt_ft ++ [lastD p.alt_ft + alt_step]
    ias_kts := p.ias_kts ++ [ias]
    battery_pct := p.battery_pct ++ [lastD p.battery_pct - battery_drain] }

/-- The average net accelerating force during the takeoff roll
(edf_mission.py lines 26-35): static thrust minus the simplified drag at 70%
of the rotation speed minus rolling friction. -/
def takeoff_net_force (ac : Aircraft) (mu : ℝ) : ℝ :=
  let avg_velocity := ac.vr_ias_mps * 0.7
  let drag_at_70_percent_vr := 0.5 * 1.225 * avg_velocity ^ 2 * (ac.wing_area_m2 / ac.ld)
  let rolling_friction := mu * ac.weight_n
  ac.edf.static_thrust_n - drag_at_70_percent_vr - rolling_friction

/-- `calculate_takeoff_distance(aircraft, mu=0.04)` (lines 24-42): `none`
models the `(inf, inf)` return for a non-positive net force, `some` carries
`(distance_m, time_s)`. -/
def calculate_takeoff_distance (ac : Aircraft) (mu : ℝ) : Option (ℝ × ℝ) :=
  if takeoff_net_force ac mu ≤ 0 then none
  else
    let acceleration := takeoff_net_force ac mu / ac.mtow_kg
    some (ac.vr_ias_mps ^ 2 / (2 * acceleration), ac.vr_ias_mps / acceleration)

/-- The ISA air density at a geometric altitude in metres
(edf_mission.py lines 65-67 and the identical blocks of Phases 3 and 4). -/
def isa_rho (alt_m : ℝ) : ℝ :=
  let temp_k := 288.15 - 0.0065 * alt_m
  let pressure_pa := 101325 * (1 - 0.0065 * alt_m / 288.15) ^ (5.256 : ℝ)
  pressure_pa / (287.05 * temp_k)

/-- The air density at the path's current (last-sample) altitude. -/
def climb_rho (path : FlightPath) : ℝ := isa_rho (lastD path.alt_ft * 0.3048)

/-- `tas_mps` of a climb step (line 69). -/
def climb_tas_mps (ac : Aircraft) (path : FlightPath) : ℝ :=
  ac.vy_ias_mps * Real.sqrt (1.225 / climb_rho path)

/-- `power_required_drag` of a climb step (lines 72-75). -/
def climb_power_required_drag (ac : Aircraft) (weight_n : ℝ) (path : FlightPath) : ℝ :=
  let d_min_n := weight_n / ac.ld
  let v_climb := climb_tas_mps ac path /
    (ac.best_glide_ias_mps * Real.sqrt (1.225 / climb_rho path))
  let drag_at_vy := d_min_n * 0.5 * (v_climb ^ 2 + (1 / v_climb) ^ 2)
  drag_at_vy * climb_tas_mps ac path

/-- `power_available_elec`, derated by the density ratio (lines 78-79). -/
def climb_power_available_elec (ac : Aircraft) (path : FlightPath) : ℝ :=
  ac.edf.power_w * (climb_rho path / 1.225)

/-- `excess_power_w` of a climb step (lines 80-83). -/
def climb_excess_power (ac : Aircraft) (weight_n : ℝ) (path : FlightPath) : ℝ :=
  climb_power_available_elec ac path *
      ac.edf.get_propulsive_efficiency (climb_tas_mps ac path)
    - climb_power_required_drag ac weight_n path

/-- The body of one executed climb step (lines 87-94): derive the climb rate
from the excess power (setting `climb_rate_fpm` the first time), then record
one 250 ft increment. -/
def climb_step (ac : Aircraft) (weight_n total_energy_j : ℝ) (path : FlightPath) :
    FlightPath :=
  let roc_mps := climb_excess_power ac weight_n path / weight_n
  let path1 :=
    if path.climb_rate_fpm = 0 then { path with climb_rate_fpm := roc_mps * 196.85 }
    else path
  let time_to_climb_s := 250 * 0.3048 / roc_mps
  let dist_step_m := climb_tas_mps ac path * time_to_climb_s
  let energy_drain_pct :=
    climb_power_available_elec ac path * time_to_climb_s / total_energy_j * 100
  path1.record_step time_to_climb_s dist_step_m 250 (ac.vy_ias_mps * 1.94384)
    energy_drain_pct

/-- Phase 2 climb loop (lines 58-94): fixed 250 ft steps while more than 75%
battery remains and the altitude is below 45000 ft; stops early when the
excess power at the current density is non-positive. -/
def climb_loop (ac : Aircraft) (weight_n total_energy_j : ℝ) :
    ℕ → FlightPath → FlightPath
  | 0, path => path
  | fuel + 1, path =>
    if 75 < lastD path.battery_pct ∧ lastD path.alt_ft < 45000 then
      if climb_excess_power ac weight_n path ≤ 0 then path
      else
        climb_loop ac weight_n total_energy_j fuel
          (climb_step ac weight_n total_energy_j path)
    else path

/-- `cruise_tas_mps` at the cruise altitude (lines 99-104). -/
def cruise_tas_mps (ac : Aircraft) (path : FlightPath) : ℝ :=
  ac.cruise_ias_mps / Real.sqrt (isa_rho (lastD path.alt_ft * 0.3048) / 1.225)

/-- `power_req_elec_cruise` (lines 105-107). -/
def cruise_power_req_elec (ac : Aircraft) (weight_n : ℝ) (path : FlightPath) : ℝ :=
  (weight_n / ac.ld) * cruise_tas_mps ac path /
    ac.edf.get_propulsive_efficiency (cruise_tas_mps ac path)

/-- Phase 3 cruise (lines 96-115): consume the energy above the 10% reserve
at the altitude reached by the climb. -/
def cruise_phase (ac : Aircraft) (weight_n total_energy_j : ℝ) (path : FlightPath) :
    FlightPath :=
  let usable_cruise_energy_j := (lastD path.battery_pct - 10.0) / 100.0 * total_energy_j
  if 0 < usable_cruise_energy_j then
    let path1 := { path with
      cruise_power_pct := cruise_power_req_elec ac weight_n path / ac.edf.power_w * 100 }
    if 0 < cruise_power_req_elec ac weight_n path then
      let cruise_time_s := usable_cruise_energy_j / cruise_power_req_elec ac weight_n path
      let dist_step_m := cruise_tas_mps ac path * cruise_time_s
      let battery_drain_pct := lastD path1.battery_pct - 10.0
      path1.record_step cruise_time_s dist_step_m 0 ac.cruise_ias_kts battery_drain_pct
    else path1
  else path

/-- `sink_rate_mps` of the descent (lines 126-131): the average true airspeed
on the glide times the sine of the glide angle. -/
def descent_sink_rate (ac : Aircraft) (path : FlightPath) : ℝ :=
  ac.best_glide_ias_mps * Real.sqrt (1.225 / isa_rho (lastD path.alt_ft / 2 * 0.3048)) *
    Real.sin (Real.arctan (1 / ac.ld))

/-- Phase 4 descent (lines 117-134): a geometric glide to the ground at best
glide speed, consuming no energy. -/
def descent_phase (ac : Aircraft) (path : FlightPath) : FlightPath :=
  let descent_alt_ft := lastD path.alt_ft
  let descent_dist_m := descent_alt_ft * 0.3048 / Real.tan (Real.arctan (1 / ac.ld))
  let descent_time_s :=
    if 0 < descent_sink_rate ac path then
      descent_alt_ft * 0.3048 / descent_sink_rate ac path
    else 0
  path.record_step descent_time_s descent_dist_m (-descent_alt_ft)
    (ac.best_glide_ias_mps * 1.94384) 0

/-- The summary scalars set after the phases (lines 136-138). -/
def finalize_path (path : FlightPath) : FlightPath :=
  { path with
    total_distance_km := lastD path.dist_m / 1000
    total_time_min := lastD path.time_s / 60
    max_altitude_ft := path.alt_ft.maximum.unbot' 0 }

/-- `run_mission_simulation(aircraft)` (lines 44-139).  When the takeoff
fails the fresh path is returned as is (line 53); otherwise the takeoff
sample is recorded and the three remaining phases run. -/
def run_mission_simulation (ac : Aircraft) : FlightPath :=
  let path := FlightPath.init
  let weight_n := ac.mtow_kg * 9.80665
  let total_energy_j := ac.battery.total_energy_j
  match calculate_takeoff_distance ac 0.04 with
  | none => path
  | some (takeoff_dist_m, takeoff_time_s) =>
    let takeoff_energy_drain_pct := ac.edf.power_w * takeoff_time_s / total_energy_j * 100
    let path := path.record_step takeoff_time_s takeoff_dist_m 0
      (ac.vr_ias_mps * 1.94384) takeoff_energy_drain_pct
    let path := climb_loop ac weight_n total_energy_j 200 path
    let path := cruise_phase ac weight_n total_energy_j path
    let path := descent_phase ac path
    finalize_path path

/-- The monotonicity invariant of a flight path: non-decreasing sample times
and cumulative distances, non-increasing battery percentages. -/
def PathMono (p : FlightPath) : Prop :=
  p.time_s.Chain' (· ≤ ·) ∧ p.dist_m.Chain' (· ≤ ·) ∧
    p.battery_pct.Chain' (fun a b => b ≤ a)

/-! ### The staged fitness functions (edf_uav_opt_test.py)

All arithmetic in `edf_fitness_function` and `battery_fitness_function` (and
in the `power_required.py` / `parasitic_drag.py` helpers they call) is field
arithmetic, so this part of the model is over ℚ and fully computable.  A
pandas dataframe is a list of rows; a `UAVVariant` is represented by the
numeric values its unit-suffixed string fields parse to (the parsing lives in
the out-of-scope `process_uav_data.py`).  A Python `raise` caught by the
functions' `except` clauses — `IndexError` from `.iloc`, `KeyError` from the
engine-count maps, `ZeroDivisionError` from a zero denominator — makes the
candidate score `+infinity`, the `Fit.inf` value below. -/

/-- A fitness value: `+infinity` (the guarded-failure cost) or a finite
rational. -/
inductive Fit where
  | inf : Fit
  | val (q : ℚ) : Fit
deriving DecidableEq

/-- Python's builtin `round` to an integer (ties to even), as applied by
`int(round(x))` to the continuous optimizer outputs. -/
def pyRound (q : ℚ) : ℤ :=
  let f := ⌊q⌋
  let r := q - f
  if r < 1 / 2 then f
  else if 1 / 2 < r then f + 1
  else if f % 2 = 0 then f else f + 1

/-- `df.iloc[i]` row selection on a dataframe with `l.length` rows: a negative
index counts from the end, and an index outside `[-len, len)` raises
`IndexError` (`none`). -/
def iloc {α : Type} (l : List α) (i : ℤ) : Option α :=
  let j := if i < 0 then i + l.length else i
  if 0 ≤ j then l[j.toNat]? else none

/-- The columns of one row of the processed EDF catalog that
`edf_fitness_function`/`battery_fitness_function` read (missing values are
already the `.get(..., 0)` default). -/
structure EdfRow where
  thrust_n : ℚ
  power_w : ℚ
  weight_g : ℚ
  est_battery_weight_kg : ℚ
  est_mtow_kg : ℚ

/-- The columns of one row of the processed battery catalog that
`battery_fitness_function` reads. -/
structure BatteryRow where
  weight_g : ℚ
  capacity_ah : ℚ
  nominal_v : ℚ

/-- The numeric values of the target `UAVVariant` fields after unit parsing:
`Payload_Capacity` (kg), `Range` (km), `Takeoff_Weight` (kg). -/
structure UAVVariantR where
  payload_capacity_kg : ℚ
  range_km : ℚ
  takeoff_weight_kg : ℚ

/-- `num_engines_map = {0: 1, 1: 2, 2: 4}` (also `num_batteries_map`): a
lookup of any other key raises `KeyError` (`none`). -/
def num_engines_map (k : ℤ) : Option ℚ :=
  if k = 0 then some 1 else if k = 1 then some 2 else if k = 2 then some 4 else none

/-- `edf_fitness_function(optimization_params, target_variant)` (lines
39-98), with `optimization_params[0]`, `optimization_params[1]` passed as the
two rational arguments and the module-level `edf_summary` dataframe as a
list.  The returned `score_details` dict is dropped; `Fit.inf` is the
`float('inf')` of the `except` clauses (which also catch the
`ZeroDivisionError` of a zero target takeoff weight). -/
def edf_fitness_function (param0 param1 : ℚ) (edf_summary : List EdfRow)
    (target_variant : UAVVariantR) : Fit :=
  let edf_index := pyRound param0
  match num_engines_map (pyRound param1) with
  | none => Fit.inf
  | some num_engines =>
    match iloc edf_summary edf_index with
    | none => Fit.inf
    | some selected_edf =>
      let total_thrust_n := selected_edf.thrust_n * num_engines
      let total_power_w := selected_edf.power_w * num_engines
      let target_takeoff_weight_kg := target_variant.takeoff_weight_kg
      let estimated_mtow_kg := selected_edf.est_mtow_kg * num_engines
      if target_takeoff_weight_kg = 0 then Fit.inf
      else
        let thrust_diff := |total_thrust_n - target_takeoff_weight_kg * 9.81 * 0.5| /
          (target_takeoff_weight_kg * 9.81 * 0.5)
        let weight_diff := |estimated_mtow_kg - target_takeoff_weight_kg| /
          target_takeoff_weight_kg
        let twr := if 0 < estimated_mtow_kg then total_thrust_n / (estimated_mtow_kg * 9.81)
          else 0
        let target_twr : ℚ := 0.5
        let twr_error := |twr - target_twr| / target_twr
        let power_penalty := total_power_w / 10000
        Fit.val (thrust_diff + weight_diff + twr_error + power_penalty)

/-- `calculate_parasitic_drag_power` (parasitic_drag.py). -/
def calculate_parasitic_drag_power (velocity_ms wing_area_m2
    zero_lift_drag_coefficient density_air_kgm3 : ℚ) : ℚ :=
  let drag_force_n := 0.5 * density_air_kgm3 * velocity_ms ^ 2 * wing_area_m2 *
    zero_lift_drag_coefficient
  drag_force_n * velocity_ms

/-- `calculate_flight_power_units` (power_required.py) with the default
`gravity_ms2 = 9.81` and `density_air_kgm3 = 1.225`; `none` is the
`ZeroDivisionError` raised when the wing area, the velocity or the wingspan
is zero. -/
def calculate_flight_power_units (mass_plane_kg wing_span_m wing_area_m2
    velocity_flight_ms zero_lift_drag_coefficient : ℚ) : Option ℚ :=
  if wing_area_m2 = 0 ∨ velocity_flight_ms = 0 ∨ wing_span_m = 0 then none
  else
    let lift_force_n := mass_plane_kg * 9.81
    let aspect := wing_span_m ^ 2 / wing_area_m2
    let induced_drag_coefficient :=
      (lift_force_n / (0.5 * 1.225 * velocity_flight_ms ^ 2 * wing_area_m2)) ^ 2 /
        (3.14159 * aspect)
    let induced_drag_force_n :=
      induced_drag_coefficient * 0.5 * 1.225 * velocity_flight_ms ^ 2 * wing_area_m2
    let induced_power_w := induced_drag_force_n * velocity_flight_ms
    let parasitic_power_w :=
      calculate_parasitic_drag_power velocity_flight_ms wing_area_m2
        zero_lift_drag_coefficient 1.225
    some (induced_power_w + parasitic_power_w)

/-- The entries of the `best_edf_config` score-details dict that
`battery_fitness_function` reads; `estimated_cruise_speed_kmh` is read with
`.get(..., 90)`, so it may be absent. -/
structure BestEdfConfig where
  edf_index : ℤ
  num_engines : ℚ
  estimated_mtow_kg : ℚ
  estimated_cruise_speed_kmh : Option ℚ

/-- The `uav_geometry` dict. -/
structure UAVGeometry where
  wing_span_m : ℚ
  wing_area_m2 : ℚ
  cd0 : ℚ

/-- `battery_fitness_function(optimization_params, best_edf_config,
target_variant, uav_geometry)` (lines 101-174), with the module-level
`battery_summary` and `edf_summary` dataframes as lists. -/
def battery_fitness_function (param0 param1 : ℚ) (battery_summary : List BatteryRow)
    (edf_summary : List EdfRow) (best_edf_config : BestEdfConfig)
    (target_variant : UAVVariantR) (uav_geometry : UAVGeometry) : Fit :=
  let battery_index := pyRound param0
  match num_engines_map (pyRound param1) with
  | none => Fit.inf
  | some num_batteries =>
  match iloc battery_summary battery_index with
  | none => Fit.inf
  | some selected_battery =>
  match iloc edf_summary best_edf_config.edf_index with
  | none => Fit.inf
  | some selected_edf =>
    let estimated_battery_weight_from_edf :=
      selected_edf.est_battery_weight_kg * best_edf_config.num_engines
    let uav_weight_without_battery :=
      best_edf_config.estimated_mtow_kg - estimated_battery_weight_from_edf
    let battery_weight_kg := selected_battery.weight_g / 1000 * num_batteries
    let new_mtow := uav_weight_without_battery + battery_weight_kg
    let cruise_speed_ms :=
      best_edf_config.estimated_cruise_speed_kmh.getD 90 * 1000 / 3600
    match calculate_flight_power_units new_mtow uav_geometry.wing_span_m
        uav_geometry.wing_area_m2 cruise_speed_ms uav_geometry.cd0 with
    | none => Fit.inf
    | some power_required_w =>
      let battery_capacity_ah := selected_battery.capacity_ah * num_batteries
      let battery_voltage := selected_battery.nominal_v
      if battery_voltage = 0 ∨ power_required_w = 0 then Fit.inf
      else
        let battery_energy_wh := battery_capacity_ah * battery_voltage
        let endurance_h :=
          if 0 < power_required_w then battery_energy_wh / power_required_w else 0
        let range_km := cruise_speed_ms * 3600 / 1000 * endurance_h
        let min_endurance_h : ℚ := 10 / 60
        let endurance_penalty := max 0 ((min_endurance_h - endurance_h) / min_endurance_h * 10)
        let range_score :=
          if 0 < target_variant.range_km then
            max 0 ((target_variant.range_km - range_km) / target_variant.range_km)
          else 0
        let weight_score :=
          if 0 < target_variant.takeoff_weight_kg then
            max 0 ((new_mtow - target_variant.takeoff_weight_kg) /
              target_variant.takeoff_weight_kg)
          else 0
        Fit.val (endurance_penalty + range_score + weight_score)

/-! Concrete fixture for exercising `design_from_mission`: a mid-range
mission spec and cruise-power target, and a battery with an enormous power
reserve, so that the battery check passes at every guess the iteration can
reach. -/

/-- A mission spec at the 50% endurance position. -/
def c2_params : FixedWingParameters := ⟨50⟩

/-- A 50% cruise-power target. -/
def c2_rules : Rules := ⟨50⟩

/-- A weightless test battery storing `10^59` Wh at 10 C. -/
def c2_battery : Battery := Battery.make 0 10 ((10:ℝ) ^ 59) 22.2 1

/-! ## Theorems -/

/-! Field equations of `aircraftOf`, read off from `Aircraft.__init__`. -/

theorem aircraftOf_edf (e : EDF) (b : Battery) (p : FixedWingParameters) :
    (aircraftOf e b p).edf = e := rfl

theorem aircraftOf_battery (e : EDF) (b : Battery) (p : FixedWingParameters) :
    (aircraftOf e b p).battery = b := rfl

theorem aircraftOf_airframe (e : EDF) (b : Battery) (p : FixedWingParameters) :
    (aircraftOf e b p).airframe_weight_kg = 0.4 + (e.weight_kg + b.weight_kg) * 0.8 := rfl

theorem aircraftOf_payload (e : EDF) (b : Battery) (p : FixedWingParameters) :
    (aircraftOf e b p).payload_weight_kg = 0.20 * (e.power_w / 100) := rfl

theorem aircraftOf_mtow (e : EDF) (b : Battery) (p : FixedWingParameters) :
    (aircraftOf e b p).mtow_kg =
      e.weight_kg + b.weight_kg + (0.4 + (e.weight_kg + b.weight_kg) * 0.8)
        + 0.20 * (e.power_w / 100) := rfl

theorem aircraftOf_weight_n (e : EDF) (b : Battery) (p : FixedWingParameters) :
    (aircraftOf e b p).weight_n = (aircraftOf e b p).mtow_kg * 9.80665 := rfl

theorem aircraftOf_ld (e : EDF) (b : Battery) (p : FixedWingParameters) :
    (aircraftOf e b p).ld = 7.0 + (p.endurance_percent / 100.0) * 5.0 := rfl

theorem aircraftOf_cruise_kts (e : EDF) (b : Battery) (p : FixedWingParameters) :
    (aircraftOf e b p).cruise_ias_kts = estimate_modified_cruise_speed e.power_w p := rfl

theorem aircraftOf_cruise_mps (e : EDF) (b : Battery) (p : FixedWingParameters) :
    (aircraftOf e b p).cruise_ias_mps = (aircraftOf e b p).cruise_ias_kts * 0.514444 := rfl

theorem aircraftOf_wing_area (e : EDF) (b : Battery) (p : FixedWingParameters) :
    (aircraftOf e b p).wing_area_m2 =
      (2 * (aircraftOf e b p).weight_n) /
        (1.225 * (aircraftOf e b p).cruise_ias_mps ^ 2 * 0.4) := rfl

theorem aircraftOf_stall (e : EDF) (b : Battery) (p : FixedWingParameters) :
    (aircraftOf e b p).stall_speed_ias_mps =
      Real.sqrt ((2 * (aircraftOf e b p).weight_n) /
        (1.225 * (aircraftOf e b p).wing_area_m2 * 1.5)) := rfl

theorem aircraftOf_vr (e : EDF) (b : Battery) (p : FixedWingParameters) :
    (aircraftOf e b p).vr_ias_mps = (aircraftOf e b p).stall_speed_ias_mps * 1.10 := rfl

theorem aircraftOf_vy (e : EDF) (b : Battery) (p : FixedWingParameters) :
    (aircraftOf e b p).vy_ias_mps = (aircraftOf e b p).stall_speed_ias_mps * 1.20 := rfl

theorem aircraftOf_glide (e : EDF) (b : Battery) (p : FixedWingParameters) :
    (aircraftOf e b p).best_glide_ias_mps =
      (aircraftOf e b p).stall_speed_ias_mps * 1.31 := rfl

/-- `mkAircraft` succeeds exactly on the `check_power_output` condition, and
then yields the `aircraftOf` field record. -/
theorem mkAircraft_ok (e : EDF) (b : Battery) (p : FixedWingParameters)
    (h : ¬b.max_power_w < e.power_w * 1.2) :
    mkAircraft e b p = Except.ok (aircraftOf e b p) := by
  unfold mkAircraft Battery.check_power_output
  rw [if_neg h]

/-- Inside the target range (with a genuine range), the score is the
triangular function of the distance to the range center. -/
theorem score_inside_eq (min_val max_val x : ℚ) (hlt : min_val < max_val)
    (h1 : min_val ≤ x) (h2 : x ≤ max_val) :
    score min_val max_val x =
      1 - |x - (min_val + max_val) / 2| / ((max_val - min_val) / 2) := by
  have hne : ¬(min_val = max_val) := ne_of_lt hlt
  have hnl : ¬x < min_val := not_lt.mpr h1
  have hng : ¬max_val < x := not_lt.mpr h2
  have hw : 0 < (max_val - min_val) / 2 := by linarith
  have hnw : ¬(max_val - min_val) / 2 ≤ 0 := not_le.mpr hw
  simp only [score, if_neg hne, if_neg hnl, if_neg hng, if_neg hnw]
  have habs : |x - (min_val + max_val) / 2| ≤ (max_val - min_val) / 2 :=
    abs_le.mpr ⟨by linarith, by linarith⟩
  have hnn : 0 ≤ 1 - |x - (min_val + max_val) / 2| / ((max_val - min_val) / 2) := by
    have := (div_le_one hw).mpr habs
    linarith
  exact max_eq_right hnn

/-- C1 (amended): for a `LogScaledParameter` range `0 < min_val < max_val`
and a *non-negative* actual value outside `[min_val, max_val]`, `score`
returns the ratio of the actual value to the violated boundary
(`actual/min` below the range, `max/actual` above it), the result is strictly
less than 1 and non-negative, and no error is raised (the divisors are
non-zero).  Without the non-negativity restriction the original claim fails:
see `c1_negative_actual_counterexample`. -/
theorem c1_score_outside_range (min_val max_val actual_value : ℚ)
    (hmin : 0 < min_val) (hlt : min_val < max_val)
    (hout : actual_value < min_val ∨ max_val < actual_value)
    (hnn : 0 ≤ actual_value) :
    score min_val max_val actual_value =
      (if actual_value < min_val then actual_value / min_val
       else max_val / actual_value) ∧
    score min_val max_val actual_value < 1 ∧
    0 ≤ score min_val max_val actual_value := by
  have hne : ¬(min_val = max_val) := ne_of_lt hlt
  rcases hout with h | h
  · have heq : score min_val max_val actual_value = actual_value / min_val := by
      simp only [score, if_neg hne, if_pos h]
    rw [heq, if_pos h]
    exact ⟨rfl, (div_lt_one hmin).mpr h, div_nonneg hnn hmin.le⟩
  · have hnl : ¬actual_value < min_val := not_lt.mpr ((hlt.trans h).le)
    have hax : 0 < actual_value := (hmin.trans hlt).trans h
    have heq : score min_val max_val actual_value = max_val / actual_value := by
      simp only [score, if_neg hne, if_neg hnl, if_pos h]
    rw [heq, if_neg hnl]
    exact ⟨rfl, (div_lt_one hax).mpr h, div_nonneg (hmin.trans hlt).le hax.le⟩

/-- Witness for `c1_score_outside_range` at `min = 1`, `max = 2`,
`actual = 3`. -/
theorem c1_score_outside_range_witness :
    ((0:ℚ) < 1 ∧ (1:ℚ) < 2 ∧ ((3:ℚ) < 1 ∨ (2:ℚ) < 3) ∧ (0:ℚ) ≤ 3) ∧
    (score 1 2 3 = (if (3:ℚ) < 1 then 3 / 1 else 2 / 3) ∧
      score 1 2 3 < 1 ∧ 0 ≤ score 1 2 3) :=
  ⟨⟨by norm_num, by norm_num, Or.inr (by norm_num), by norm_num⟩,
    c1_score_outside_range 1 2 3 (by norm_num) (by norm_num)
      (Or.inr (by norm_num)) (by norm_num)⟩

/-- Counterexample to C1 as stated: the actual value `-1` lies outside the
range `[1, 2]`, yet `score` returns `-1/1 = -1`, a negative number. -/
theorem c1_negative_actual_counterexample : score 1 2 (-1) < 0 := by
  simp only [score]
  norm_num

/-- C6: with `min_val < max_val`, the score is `1` at the arithmetic center,
`0` at both edges, equals `1 − (distance from center)/(half-range-width)`
throughout the range, and strictly decreases moving outward from the center
on both sides. -/
theorem c6_score_triangular (min_val max_val : ℚ) (hlt : min_val < max_val) :
    score min_val max_val ((min_val + max_val) / 2) = 1 ∧
    score min_val max_val min_val = 0 ∧
    score min_val max_val max_val = 0 ∧
    (∀ x, min_val ≤ x → x ≤ max_val →
      score min_val max_val x =
        1 - |x - (min_val + max_val) / 2| / ((max_val - min_val) / 2)) ∧
    (∀ x y, (min_val + max_val) / 2 ≤ x → x < y → y ≤ max_val →
      score min_val max_val y < score min_val max_val x) ∧
    (∀ x y, min_val ≤ x → x < y → y ≤ (min_val + max_val) / 2 →
      score min_val max_val x < score min_val max_val y) := by
  have hw : 0 < (max_val - min_val) / 2 := by linarith
  have hwne : (max_val - min_val) / 2 ≠ 0 := ne_of_gt hw
  have hinside := score_inside_eq min_val max_val
  refine ⟨?_, ?_, ?_, fun x h1 h2 => hinside x hlt h1 h2, ?_, ?_⟩
  · rw [hinside _ hlt (by linarith) (by linarith), sub_self, abs_zero, zero_div, sub_zero]
  · rw [hinside _ hlt le_rfl hlt.le]
    have : |min_val - (min_val + max_val) / 2| = (max_val - min_val) / 2 := by
      rw [abs_of_nonpos (by linarith)]; ring
    rw [this, div_self hwne, sub_self]
  · rw [hinside _ hlt hlt.le le_rfl]
    have : |max_val - (min_val + max_val) / 2| = (max_val - min_val) / 2 := by
      rw [abs_of_nonneg (by linarith)]; ring
    rw [this, div_self hwne, sub_self]
  · intro x y hx hxy hy
    rw [hinside x hlt (by linarith) (by linarith), hinside y hlt (by linarith) hy,
      abs_of_nonneg (show (0:ℚ) ≤ x - (min_val + max_val) / 2 by linarith),
      abs_of_nonneg (show (0:ℚ) ≤ y - (min_val + max_val) / 2 by linarith)]
    have h5 : (x - (min_val + max_val) / 2) / ((max_val - min_val) / 2)
        < (y - (min_val + max_val) / 2) / ((max_val - min_val) / 2) :=
      div_lt_div_of_pos_right (by linarith) hw
    linarith
  · intro x y hx hxy hy
    rw [hinside x hlt hx (by linarith), hinside y hlt (by linarith) (by linarith),
      abs_of_nonpos (show x - (min_val + max_val) / 2 ≤ 0 by linarith),
      abs_of_nonpos (show y - (min_val + max_val) / 2 ≤ 0 by linarith)]
    have h5 : -(y - (min_val + max_val) / 2) / ((max_val - min_val) / 2)
        < -(x - (min_val + max_val) / 2) / ((max_val - min_val) / 2) :=
      div_lt_div_of_pos_right (by linarith) hw
    linarith

/-- Witness for `c6_score_triangular` on the range `[1, 3]`. -/
theorem c6_score_triangular_witness :
    (1:ℚ) < 3 ∧
    (score 1 3 (((1:ℚ) + 3) / 2) = 1 ∧
     score 1 3 1 = 0 ∧
     score 1 3 3 = 0 ∧
     (∀ x, (1:ℚ) ≤ x → x ≤ 3 →
       score 1 3 x = 1 - |x - ((1:ℚ) + 3) / 2| / (((3:ℚ) - 1) / 2)) ∧
     (∀ x y, ((1:ℚ) + 3) / 2 ≤ x → x < y → y ≤ 3 → score 1 3 y < score 1 3 x) ∧
     (∀ x y, (1:ℚ) ≤ x → x < y → y ≤ ((1:ℚ) + 3) / 2 → score 1 3 x < score 1 3 y)) :=
  ⟨by norm_num, c6_score_triangular 1 3 (by norm_num)⟩

/-- `df.iloc[i]` raises `IndexError` exactly for indices outside
`[-len, len)`. -/
theorem iloc_eq_none {α : Type} (l : List α) (i : ℤ)
    (h : i < -(l.length : ℤ) ∨ (l.length : ℤ) ≤ i) : iloc l i = none := by
  simp only [iloc]
  rcases h with h | h
  · rw [if_pos (show i < 0 by omega), if_neg (show ¬(0:ℤ) ≤ i + l.length by omega)]
  · rw [if_neg (show ¬i < 0 by omega), if_pos (show (0:ℤ) ≤ i by omega)]
    exact List.getElem?_eq_none (by omega)

/-- C8 (amended): when the rounded catalog index lies outside the index
range pandas `.iloc` accepts — at least the number of catalog rows, or less
than minus that number — both staged objective functions return `+infinity`
and raise nothing (and, being pure functions of their catalog arguments,
leave the catalogs unchanged).  A rounded index in `[-len, -1]`, although
outside the row range `[0, len-1]`, is instead resolved by pandas from the
end of the catalog: see `c8_negative_index_counterexample`. -/
theorem c8_out_of_range_index (param0 param1 q0 q1 : ℚ) (edf_summary : List EdfRow)
    (battery_summary : List BatteryRow) (target_variant : UAVVariantR)
    (best_edf_config : BestEdfConfig) (uav_geometry : UAVGeometry)
    (h1 : pyRound param0 < -(edf_summary.length : ℤ) ∨
      (edf_summary.length : ℤ) ≤ pyRound param0)
    (h2 : pyRound q0 < -(battery_summary.length : ℤ) ∨
      (battery_summary.length : ℤ) ≤ pyRound q0) :
    edf_fitness_function param0 param1 edf_summary target_variant = Fit.inf ∧
    battery_fitness_function q0 q1 battery_summary edf_summary best_edf_config
      target_variant uav_geometry = Fit.inf := by
  constructor
  · simp only [edf_fitness_function, iloc_eq_none _ _ h1]
    cases num_engines_map (pyRound param1) <;> rfl
  · simp only [battery_fitness_function, iloc_eq_none _ _ h2]
    cases num_engines_map (pyRound q1) <;> rfl

/-- Witness for `c8_out_of_range_index`: rounded indices 5 and 3 against
catalogs of 2 and 1 rows. -/
theorem c8_out_of_range_index_witness :
    ((((List.length [(⟨10, 100, 500, 0.5, 2⟩ : EdfRow), ⟨20, 200, 800, 0.8, 3⟩]) : ℤ)
        ≤ pyRound 5) ∧
      (((List.length [(⟨500, 5, 22.2⟩ : BatteryRow)]) : ℤ) ≤ pyRound 3)) ∧
    (edf_fitness_function 5 0 [⟨10, 100, 500, 0.5, 2⟩, ⟨20, 200, 800, 0.8, 3⟩]
        ⟨1, 100, 10⟩ = Fit.inf ∧
      battery_fitness_function 3 0 [⟨500, 5, 22.2⟩]
        [⟨10, 100, 500, 0.5, 2⟩, ⟨20, 200, 800, 0.8, 3⟩] ⟨0, 1, 2, none⟩
        ⟨1, 100, 10⟩ ⟨2, 0.4, 0.035⟩ = Fit.inf) :=
  ⟨⟨by norm_num [pyRound], by norm_num [pyRound]⟩,
    c8_out_of_range_index 5 0 3 0 _ _ _ _ _ (Or.inr (by norm_num [pyRound]))
      (Or.inr (by norm_num [pyRound]))⟩

/-- Counterexample to C8 as stated: the rounded index `-1` is outside the
catalog's row range `[0, 1]`, yet `edf_fitness_function` does not return
`+infinity` — pandas `.iloc[-1]` selects the last row and the candidate is
scored normally. -/
theorem c8_negative_index_counterexample :
    edf_fitness_function (-1) 0 [⟨10, 100, 500, 0.5, 2⟩, ⟨20, 200, 800, 0.8, 3⟩]
      ⟨1, 100, 10⟩ ≠ Fit.inf := by
  have h0 : pyRound (-1 : ℚ) = -1 := by norm_num [pyRound]
  have h1 : pyRound (0 : ℚ) = 0 := by norm_num [pyRound]
  have hm : num_engines_map 0 = some 1 := by norm_num [num_engines_map]
  have hi : iloc [(⟨10, 100, 500, 0.5, 2⟩ : EdfRow), ⟨20, 200, 800, 0.8, 3⟩] (-1 : ℤ)
      = some ⟨20, 200, 800, 0.8, 3⟩ := by
    simp [iloc]
  simp only [edf_fitness_function, h0, h1, hm, hi]
  norm_num
  exact fun hc => Fit.noConfusion hc

/-- C3 (amended): for a `LogScaledParameter` with `0 < min_val < max_val` and
any `p ∈ [0, 100]`, setting `percent` to `p` succeeds, reading `value` and
setting `value` back succeeds (the value lands inside `[min_val, max_val]`),
and it reproduces the original percent *exactly* — in particular within the
claimed `1e-9` relative floating-point tolerance.  For the degenerate
`min_val = max_val` range (which the constructor accepts) the round trip does
not reproduce `p`: see `c3_degenerate_range_counterexample`. -/
theorem c3_percent_value_round_trip (min_val max_val p : ℝ)
    (hmin : 0 < min_val) (hlt : min_val < max_val) (hp0 : 0 ≤ p) (hp1 : p ≤ 100) :
    lsp_set_percent p = Except.ok p ∧
    lsp_set_value min_val max_val (lsp_value min_val max_val p) = Except.ok p := by
  have hmax : 0 < max_val := hmin.trans hlt
  have hlog : Real.log min_val < Real.log max_val := Real.log_lt_log hmin hlt
  have hd : 0 < Real.log max_val - Real.log min_val := by linarith
  have hfrac0 : 0 ≤ p / 100 := by positivity
  have hfrac1 : p / 100 ≤ 1 := by linarith
  have hlo : min_val ≤ lsp_value min_val max_val p := by
    have : Real.log min_val ≤
        Real.log min_val + p / 100 * (Real.log max_val - Real.log min_val) := by
      nlinarith
    calc min_val = Real.exp (Real.log min_val) := (Real.exp_log hmin).symm
    _ ≤ lsp_value min_val max_val p := Real.exp_le_exp.mpr this
  have hhi : lsp_value min_val max_val p ≤ max_val := by
    have : Real.log min_val + p / 100 * (Real.log max_val - Real.log min_val) ≤
        Real.log max_val := by
      nlinarith
    calc lsp_value min_val max_val p ≤ Real.exp (Real.log max_val) :=
          Real.exp_le_exp.mpr this
    _ = max_val := Real.exp_log hmax
  refine ⟨?_, ?_⟩
  · unfold lsp_set_percent
    rw [if_pos ⟨hp0, hp1⟩]
  · unfold lsp_set_value
    rw [if_pos ⟨hlo, hhi⟩, if_neg (sub_ne_zero.mpr (ne_of_gt hlog))]
    unfold lsp_value
    rw [Real.log_exp]
    congr 1
    field_simp
    ring

/-- Witness for `c3_percent_value_round_trip` on the range `[1, 2]` at
`p = 50`. -/
theorem c3_percent_value_round_trip_witness :
    ((0:ℝ) < 1 ∧ (1:ℝ) < 2 ∧ (0:ℝ) ≤ 50 ∧ (50:ℝ) ≤ 100) ∧
    (lsp_set_percent 50 = Except.ok 50 ∧
      lsp_set_value 1 2 (lsp_value 1 2 50) = Except.ok 50) :=
  ⟨⟨by norm_num, by norm_num, by norm_num, by norm_num⟩,
    c3_percent_value_round_trip 1 2 50 (by norm_num) (by norm_num) (by norm_num)
      (by norm_num)⟩

/-- Counterexample to C3 as stated: the constructor accepts
`min_val = max_val = 2` (it only rejects `min_val > max_val`), but on that
parameter the percent→value→percent round trip from `p = 50` does not return
50 — the interpolation denominator `log max − log min` is zero and the value
setter raises `ZeroDivisionError`. -/
theorem c3_degenerate_range_counterexample :
    lsp_set_value 2 2 (lsp_value 2 2 50) ≠ Except.ok 50 := by
  have hv : lsp_value 2 2 50 = 2 := by
    unfold lsp_value
    rw [sub_self, mul_zero, add_zero, Real.exp_log (by norm_num : (0:ℝ) < 2)]
  rw [hv]
  unfold lsp_set_value
  rw [if_pos ⟨le_refl (2:ℝ), le_refl (2:ℝ)⟩, if_pos (sub_self (Real.log 2))]
  intro hc
  exact Except.noConfusion hc

/-- C5: `check_power_output` raises exactly when `max_power_w` is strictly
below 1.2 times the required power, and returns normally otherwise; and
`Aircraft.__init__` runs this check first, so construction yields an aircraft
exactly when the battery passes the check for the EDF's rated power. -/
theorem c5_battery_power_check (b : Battery) (required_power_w : ℝ) (edf : EDF)
    (params : FixedWingParameters) :
    (b.check_power_output required_power_w = Except.ok () ↔
      1.2 * required_power_w ≤ b.max_power_w) ∧
    ((∃ ac, mkAircraft edf b params = Except.ok ac) ↔
      1.2 * edf.power_w ≤ b.max_power_w) := by
  constructor
  · unfold Battery.check_power_output
    split_ifs with h
    · refine iff_of_false (by simp) (fun hle => ?_)
      linarith
    · push_neg at h
      exact iff_of_true rfl (by linarith)
  · by_cases h : b.max_power_w < edf.power_w * 1.2
    · have hmk : mkAircraft edf b params = Except.error "Battery cannot supply peak power." := by
        unfold mkAircraft Battery.check_power_output
        rw [if_pos h]
      rw [hmk]
      refine iff_of_false (fun hc => ?_) (fun hle => by linarith)
      obtain ⟨ac, hac⟩ := hc
      simp at hac
    · rw [mkAircraft_ok edf b params h]
      push_neg at h
      exact iff_of_true ⟨aircraftOf edf b params, rfl⟩ (by linarith)

/-- C9: for a successfully constructed `Aircraft` (with physically
meaningful, non-negative component weights), the MTOW is the power-system
weight plus the airframe weight plus the payload weight, the airframe weight
is the fixed linear function `0.4 + 0.8 ×` power-system weight, and a
positive rated power makes the MTOW strictly exceed the propulsor-plus-
battery weight. -/
theorem c9_mtow_build_up (edf : EDF) (battery : Battery) (params : FixedWingParameters)
    (ac : Aircraft) (hok : mkAircraft edf battery params = Except.ok ac)
    (hew : 0 ≤ edf.weight_kg) (hbw : 0 ≤ battery.weight_kg) :
    ac.mtow_kg = (edf.weight_kg + battery.weight_kg) + ac.airframe_weight_kg
      + ac.payload_weight_kg ∧
    ac.airframe_weight_kg = 0.4 + (edf.weight_kg + battery.weight_kg) * 0.8 ∧
    (0 < edf.power_w → edf.weight_kg + battery.weight_kg < ac.mtow_kg) := by
  have hac : ac = aircraftOf edf battery params := by
    unfold mkAircraft at hok
    cases hc : battery.check_power_output edf.power_w with
    | error e => rw [hc] at hok; simp at hok
    | ok u =>
      rw [hc] at hok
      injection hok with h
      exact h.symm
  subst hac
  rw [aircraftOf_mtow, aircraftOf_airframe, aircraftOf_payload]
  refine ⟨by ring, rfl, fun hp => ?_⟩
  have h8 : 0 ≤ (edf.weight_kg + battery.weight_kg) * 0.8 :=
    mul_nonneg (by linarith) (by norm_num)
  have hpp : 0 < 0.20 * (edf.power_w / 100) := by positivity
  linarith

/-- Witness for `c9_mtow_build_up` on a 100 W EDF with a generous battery. -/
theorem c9_mtow_build_up_witness :
    (mkAircraft (⟨100, 30, 1, 0.1⟩ : EDF) (Battery.make 1 30 500 22.2 1)
        (⟨50⟩ : FixedWingParameters)
      = Except.ok (aircraftOf ⟨100, 30, 1, 0.1⟩ (Battery.make 1 30 500 22.2 1) ⟨50⟩) ∧
      (0:ℝ) ≤ (⟨100, 30, 1, 0.1⟩ : EDF).weight_kg ∧
      (0:ℝ) ≤ (Battery.make 1 30 500 22.2 1).weight_kg) ∧
    ((aircraftOf ⟨100, 30, 1, 0.1⟩ (Battery.make 1 30 500 22.2 1) ⟨50⟩).mtow_kg =
      ((⟨100, 30, 1, 0.1⟩ : EDF).weight_kg + (Battery.make 1 30 500 22.2 1).weight_kg)
        + (aircraftOf ⟨100, 30, 1, 0.1⟩ (Battery.make 1 30 500 22.2 1) ⟨50⟩).airframe_weight_kg
        + (aircraftOf ⟨100, 30, 1, 0.1⟩ (Battery.make 1 30 500 22.2 1) ⟨50⟩).payload_weight_kg ∧
      (aircraftOf ⟨100, 30, 1, 0.1⟩ (Battery.make 1 30 500 22.2 1) ⟨50⟩).airframe_weight_kg =
        0.4 + ((⟨100, 30, 1, 0.1⟩ : EDF).weight_kg
          + (Battery.make 1 30 500 22.2 1).weight_kg) * 0.8 ∧
      (0 < (⟨100, 30, 1, 0.1⟩ : EDF).power_w →
        (⟨100, 30, 1, 0.1⟩ : EDF).weight_kg + (Battery.make 1 30 500 22.2 1).weight_kg <
          (aircraftOf ⟨100, 30, 1, 0.1⟩ (Battery.make 1 30 500 22.2 1) ⟨50⟩).mtow_kg)) := by
  have hok : mkAircraft (⟨100, 30, 1, 0.1⟩ : EDF) (Battery.make 1 30 500 22.2 1)
      (⟨50⟩ : FixedWingParameters)
      = Except.ok (aircraftOf ⟨100, 30, 1, 0.1⟩ (Battery.make 1 30 500 22.2 1) ⟨50⟩) :=
    mkAircraft_ok _ _ _ (by norm_num [Battery.make])
  exact ⟨⟨hok, by norm_num, by norm_num [Battery.make]⟩,
    c9_mtow_build_up _ _ _ _ hok (by norm_num) (by norm_num [Battery.make])⟩

/-- C10: for an EDF of positive rated power and a non-negative true airspeed,
the propulsive efficiency is at least the floor 0.1, at most the peak 0.70,
never zero, and equals the peak 0.70 exactly when the airspeed equals the
design speed. -/
theorem c10_propulsive_efficiency (e : EDF) (tas_mps : ℝ)
    (hp : 0 < e.power_w) (ht : 0 ≤ tas_mps) :
    0.1 ≤ e.get_propulsive_efficiency tas_mps ∧
    e.get_propulsive_efficiency tas_mps ≤ 0.70 ∧
    e.get_propulsive_efficiency tas_mps ≠ 0 ∧
    (e.get_propulsive_efficiency tas_mps = 0.70 ↔ tas_mps = e.design_speed_mps) := by
  have hd : 0 < e.design_speed_mps := by
    unfold EDF.design_speed_mps
    have : 0 < e.power_w / 150 := by positivity
    linarith
  have hexp : Real.exp (-((tas_mps / e.design_speed_mps - 1) ^ 2) / 0.8) ≤ 1 := by
    rw [Real.exp_le_one_iff]
    apply div_nonpos_of_nonpos_of_nonneg
    · simpa using sq_nonneg (tas_mps / e.design_speed_mps - 1)
    · norm_num
  have heff : e.get_propulsive_efficiency tas_mps =
      max 0.1 (0.70 * Real.exp (-((tas_mps / e.design_speed_mps - 1) ^ 2) / 0.8)) := rfl
  have hub : 0.70 * Real.exp (-((tas_mps / e.design_speed_mps - 1) ^ 2) / 0.8) ≤ 0.70 :=
    mul_le_of_le_one_right (by norm_num) hexp
  have hlb : (0.1 : ℝ) ≤ e.get_propulsive_efficiency tas_mps := heff ▸ le_max_left _ _
  refine ⟨hlb, ?_, ?_, ?_⟩
  · rw [heff]
    exact max_le (by norm_num) hub
  · intro h0
    rw [h0] at hlb
    norm_num at hlb
  · rw [heff]
    constructor
    · intro hmax
      have hE : 0.70 * Real.exp (-((tas_mps / e.design_speed_mps - 1) ^ 2) / 0.8) = 0.70 := by
        rcases max_choice (0.1 : ℝ)
            (0.70 * Real.exp (-((tas_mps / e.design_speed_mps - 1) ^ 2) / 0.8)) with hc | hc
        · rw [hc] at hmax; norm_num at hmax
        · rw [hc] at hmax; exact hmax
      have hE1 : Real.exp (-((tas_mps / e.design_speed_mps - 1) ^ 2) / 0.8) = 1 := by
        linarith
      have hzero : -((tas_mps / e.design_speed_mps - 1) ^ 2) / 0.8 = 0 :=
        (Real.exp_eq_one_iff _).mp hE1
      have hsq : (tas_mps / e.design_speed_mps - 1) ^ 2 = 0 := by
        rcases div_eq_zero_iff.mp hzero with hn | hd8
        · linarith [neg_eq_zero.mp hn]
        · norm_num at hd8
      have hr : tas_mps / e.design_speed_mps = 1 := by
        have := pow_eq_zero_iff (n := 2) (by norm_num) |>.mp hsq
        linarith
      field_simp at hr
      exact hr
    · intro hts
      rw [hts, div_self (ne_of_gt hd)]
      norm_num

/-- Witness for `c10_propulsive_efficiency` at a 150 W EDF and zero
airspeed. -/
theorem c10_propulsive_efficiency_witness :
    ((0:ℝ) < (⟨150, 10, 0.5, 0.1⟩ : EDF).power_w ∧ (0:ℝ) ≤ 0) ∧
    (0.1 ≤ (⟨150, 10, 0.5, 0.1⟩ : EDF).get_propulsive_efficiency 0 ∧
      (⟨150, 10, 0.5, 0.1⟩ : EDF).get_propulsive_efficiency 0 ≤ 0.70 ∧
      (⟨150, 10, 0.5, 0.1⟩ : EDF).get_propulsive_efficiency 0 ≠ 0 ∧
      ((⟨150, 10, 0.5, 0.1⟩ : EDF).get_propulsive_efficiency 0 = 0.70 ↔
        (0:ℝ) = (⟨150, 10, 0.5, 0.1⟩ : EDF).design_speed_mps)) :=
  ⟨⟨by norm_num, le_refl 0⟩,
    c10_propulsive_efficiency ⟨150, 10, 0.5, 0.1⟩ 0 (by norm_num) (le_refl 0)⟩

/-- The empirical cruise-speed estimate is strictly positive and at most
`0.19815 × 20000 = 3963` knots whenever the endurance percent respects its
class invariant `[0, 100]` (the power is clipped into `[200, 20000]`
beforehand, so no assumption on it is needed). -/
theorem estimate_cruise_bounds (power_w : ℝ) (params : FixedWingParameters)
    (h0 : 0 ≤ params.endurance_percent) (h1 : params.endurance_percent ≤ 100) :
    0 < estimate_modified_cruise_speed power_w params ∧
    estimate_modified_cruise_speed power_w params ≤ 3963 := by
  unfold estimate_modified_cruise_speed
  set c := min (max power_w 200) 20000 with hc
  have hc1 : (200:ℝ) ≤ c := le_min (le_max_right _ _) (by norm_num)
  have hc2 : c ≤ 20000 := min_le_right _ _
  have hcpos : (0:ℝ) < c := by linarith
  have hx1 : (1:ℝ) ≤ max 1 (c / 1000) := le_max_left _ _
  have hx2 : max 1 (c / 1000) ≤ 100 := max_le (by norm_num) (by linarith)
  have hlogb0 : 0 ≤ Real.logb 10 (max 1 (c / 1000)) := Real.logb_nonneg (by norm_num) hx1
  have hlogb2 : Real.logb 10 (max 1 (c / 1000)) ≤ 2 := by
    have hlog : Real.log (max 1 (c / 1000)) ≤ Real.log 100 :=
      Real.log_le_log (by linarith) hx2
    have hlog100 : Real.log 100 = 2 * Real.log 10 := by
      rw [show (100:ℝ) = 10 ^ (2:ℕ) by norm_num, Real.log_pow]
      push_cast
      ring
    have hl10 : 0 < Real.log 10 := Real.log_pos (by norm_num)
    rw [Real.logb, div_le_iff hl10]
    linarith
  have hsp1 : (0.8:ℝ) ≤ 1.0 - 0.10 * Real.logb 10 (max 1 (c / 1000)) := by linarith
  have hsp2 : 1.0 - 0.10 * Real.logb 10 (max 1 (c / 1000)) ≤ 1 := by linarith
  have hsf1 : (0.35:ℝ) ≤ 1.0 - params.endurance_percent / 100.0 * (1.0 - 0.35) := by
    linarith
  have hsf2 : 1.0 - params.endurance_percent / 100.0 * (1.0 - 0.35) ≤ 1 := by
    have hq : 0 ≤ params.endurance_percent / 100.0 * (1.0 - 0.35) := by positivity
    linarith
  have hbase1 : 0 < 0.19815 * c ^ (0.6246:ℝ) :=
    mul_pos (by norm_num) (Real.rpow_pos_of_pos hcpos _)
  have hbase2 : 0.19815 * c ^ (0.6246:ℝ) ≤ 3963 := by
    have h1c : (1:ℝ) ≤ c := by linarith
    have hr := Real.rpow_le_rpow_of_exponent_le h1c (show (0.6246:ℝ) ≤ 1 by norm_num)
    rw [Real.rpow_one] at hr
    nlinarith
  constructor
  · exact mul_pos (mul_pos hbase1 (by linarith)) (by linarith)
  · have hstep0 : 0 ≤ 0.19815 * c ^ (0.6246:ℝ) *
        (1.0 - params.endurance_percent / 100.0 * (1.0 - 0.35)) :=
      mul_nonneg hbase1.le (by linarith)
    have hstep1 : 0.19815 * c ^ (0.6246:ℝ) *
        (1.0 - params.endurance_percent / 100.0 * (1.0 - 0.35)) ≤
        0.19815 * c ^ (0.6246:ℝ) :=
      mul_le_of_le_one_right hbase1.le hsf2
    have hstep2 := mul_le_of_le_one_right hstep0 hsp2
    linarith

/-- Basic positivity of the derived `Aircraft` fields for physically valid
construction inputs. -/
theorem aircraftOf_pos (e : EDF) (b : Battery) (p : FixedWingParameters)
    (hp : 0 < e.power_w) (hew : 0 ≤ e.weight_kg) (hbw : 0 ≤ b.weight_kg)
    (h0 : 0 ≤ p.endurance_percent) (h1 : p.endurance_percent ≤ 100) :
    0 < (aircraftOf e b p).mtow_kg ∧ 0 < (aircraftOf e b p).weight_n ∧
    0 < (aircraftOf e b p).ld ∧ 0 < (aircraftOf e b p).cruise_ias_mps ∧
    0 < (aircraftOf e b p).wing_area_m2 ∧ 0 < (aircraftOf e b p).stall_speed_ias_mps ∧
    0 < (aircraftOf e b p).vr_ias_mps ∧ 0 < (aircraftOf e b p).vy_ias_mps ∧
    0 < (aircraftOf e b p).best_glide_ias_mps := by
  have hmtow : 0 < (aircraftOf e b p).mtow_kg := by
    rw [aircraftOf_mtow]
    have h8 : 0 ≤ (e.weight_kg + b.weight_kg) * 0.8 :=
      mul_nonneg (by linarith) (by norm_num)
    have hpp : 0 < 0.20 * (e.power_w / 100) := by positivity
    linarith
  have hW : 0 < (aircraftOf e b p).weight_n := by
    rw [aircraftOf_weight_n]
    exact mul_pos hmtow (by norm_num)
  have hld : 0 < (aircraftOf e b p).ld := by
    rw [aircraftOf_ld]
    have hq : 0 ≤ p.endurance_percent / 100.0 * 5.0 := by positivity
    linarith
  have hcm : 0 < (aircraftOf e b p).cruise_ias_mps := by
    rw [aircraftOf_cruise_mps, aircraftOf_cruise_kts]
    exact mul_pos (estimate_cruise_bounds e.power_w p h0 h1).1 (by norm_num)
  have harea : 0 < (aircraftOf e b p).wing_area_m2 := by
    rw [aircraftOf_wing_area]
    exact div_pos (by linarith)
      (mul_pos (mul_pos (by norm_num) (pow_pos hcm 2)) (by norm_num))
  have hstall : 0 < (aircraftOf e b p).stall_speed_ias_mps := by
    rw [aircraftOf_stall]
    exact Real.sqrt_pos.mpr
      (div_pos (by linarith) (mul_pos (mul_pos (by norm_num) harea) (by norm_num)))
  refine ⟨hmtow, hW, hld, hcm, harea, hstall, ?_, ?_, ?_⟩
  · rw [aircraftOf_vr]; exact mul_pos hstall (by norm_num)
  · rw [aircraftOf_vy]; exact mul_pos hstall (by norm_num)
  · rw [aircraftOf_glide]; exact mul_pos hstall (by norm_num)

/-- For a constructed aircraft, the simplified takeoff drag term collapses —
the wing area cancels between the `S/ld` factor and the stall-speed
definition — leaving the closed form
`thrust − 0.5929·W/(1.5·ld) − μ·W`. -/
theorem takeoff_net_force_aircraftOf (e : EDF) (b : Battery) (p : FixedWingParameters)
    (hp : 0 < e.power_w) (hew : 0 ≤ e.weight_kg) (hbw : 0 ≤ b.weight_kg)
    (h0 : 0 ≤ p.endurance_percent) (h1 : p.endurance_percent ≤ 100) (mu : ℝ) :
    takeoff_net_force (aircraftOf e b p) mu =
      e.static_thrust_n
        - 0.5929 * (aircraftOf e b p).weight_n / (1.5 * (aircraftOf e b p).ld)
        - mu * (aircraftOf e b p).weight_n := by
  obtain ⟨hmtow, hW, hld, hcm, harea, hstall, hvr, hvy, hgl⟩ :=
    aircraftOf_pos e b p hp hew hbw h0 h1
  have hsq : (aircraftOf e b p).stall_speed_ias_mps ^ 2 =
      2 * (aircraftOf e b p).weight_n /
        (1.225 * (aircraftOf e b p).wing_area_m2 * 1.5) := by
    rw [aircraftOf_stall]
    exact Real.sq_sqrt (by positivity)
  have hSne : (aircraftOf e b p).wing_area_m2 ≠ 0 := ne_of_gt harea
  have hldne : (aircraftOf e b p).ld ≠ 0 := ne_of_gt hld
  simp only [takeoff_net_force, aircraftOf_edf, aircraftOf_vr]
  rw [show ((aircraftOf e b p).stall_speed_ias_mps * 1.10 * 0.7) ^ 2 =
      (aircraftOf e b p).stall_speed_ias_mps ^ 2 * (1.10 * 0.7) ^ 2 from by ring,
    hsq]
  field_simp
  ring

/-- C7: for every `Aircraft` whose takeoff net force (static thrust minus
drag at 70% of rotation speed minus rolling friction) is non-positive, the
mission simulation returns (without raising) the degenerate path: only the
initial sample, with zero total recorded distance — no climb, cruise or
descent phase executes. -/
theorem c7_takeoff_failure_degenerate (ac : Aircraft)
    (h : takeoff_net_force ac 0.04 ≤ 0) :
    run_mission_simulation ac = FlightPath.init ∧
    (run_mission_simulation ac).dist_m = [0] ∧
    (run_mission_simulation ac).total_distance_km = 0 := by
  have hnone : calculate_takeoff_distance ac 0.04 = none := by
    unfold calculate_takeoff_distance
    rw [if_pos h]
  have hrun : run_mission_simulation ac = FlightPath.init := by
    unfold run_mission_simulation
    rw [hnone]
  refine ⟨hrun, ?_, ?_⟩ <;> rw [hrun] <;> rfl

/-- Witness for `c7_takeoff_failure_degenerate`: an aircraft record with zero
static thrust cannot accelerate, and its mission is the degenerate path. -/
theorem c7_takeoff_failure_degenerate_witness :
    takeoff_net_force (⟨⟨100, 0, 1, 0.1⟩, Battery.make 1 30 500 22.2 1, ⟨50⟩,
        2, 0.2, 4.2, 41.2, 0.1, 9.5, 50, 25, 1, 1, 1.1, 1.2, 1.31, 0, 50⟩ : Aircraft)
        0.04 ≤ 0 ∧
    (run_mission_simulation (⟨⟨100, 0, 1, 0.1⟩, Battery.make 1 30 500 22.2 1, ⟨50⟩,
        2, 0.2, 4.2, 41.2, 0.1, 9.5, 50, 25, 1, 1, 1.1, 1.2, 1.31, 0, 50⟩ : Aircraft)
      = FlightPath.init ∧
    (run_mission_simulation (⟨⟨100, 0, 1, 0.1⟩, Battery.make 1 30 500 22.2 1, ⟨50⟩,
        2, 0.2, 4.2, 41.2, 0.1, 9.5, 50, 25, 1, 1, 1.1, 1.2, 1.31, 0, 50⟩ : Aircraft)).dist_m
      = [0] ∧
    (run_mission_simulation (⟨⟨100, 0, 1, 0.1⟩, Battery.make 1 30 500 22.2 1, ⟨50⟩,
        2, 0.2, 4.2, 41.2, 0.1, 9.5, 50, 25, 1, 1, 1.1, 1.2, 1.31, 0, 50⟩ : Aircraft)).total_distance_km
      = 0) := by
  have hnet : takeoff_net_force (⟨⟨100, 0, 1, 0.1⟩, Battery.make 1 30 500 22.2 1, ⟨50⟩,
      2, 0.2, 4.2, 41.2, 0.1, 9.5, 50, 25, 1, 1, 1.1, 1.2, 1.31, 0, 50⟩ : Aircraft)
      0.04 ≤ 0 := by
    norm_num [takeoff_net_force]
  exact ⟨hnet, c7_takeoff_failure_degenerate _ hnet⟩

/-! Lemmas for the mission-path monotonicity claim. -/

theorem lastD_concat (l : List ℝ) (x : ℝ) : lastD (l ++ [x]) = x := by
  simp [lastD, List.getLastD_eq_getLast?, List.getLast?_concat]

theorem lastD_of_getLast (l : List ℝ) (a : ℝ) (h : l.getLast? = some a) :
    lastD l = a := by
  simp [lastD, List.getLastD_eq_getLast?, h]

theorem chain'_concat_of_last (l : List ℝ) (x : ℝ) (r : ℝ → ℝ → Prop)
    (hc : l.Chain' r) (hx : ∀ a, l.getLast? = some a → r a x) :
    (l ++ [x]).Chain' r := by
  rw [List.chain'_append]
  refine ⟨hc, List.chain'_singleton x, fun a ha y hy => ?_⟩
  have hya : x = y := by simpa using hy
  subst hya
  exact hx a (by simpa using ha)

/-- `record_step` with non-negative time, distance, and battery-drain steps
preserves the monotonicity invariant. -/
theorem record_step_mono (p : FlightPath) (dt dist_step alt_step ias battery_drain : ℝ)
    (hm : PathMono p) (hdt : 0 ≤ dt) (hds : 0 ≤ dist_step) (hdr : 0 ≤ battery_drain) :
    PathMono (p.record_step dt dist_step alt_step ias battery_drain) := by
  obtain ⟨h1, h2, h3⟩ := hm
  refine ⟨?_, ?_, ?_⟩
  · show (p.time_s ++ [lastD p.time_s + dt]).Chain' (· ≤ ·)
    apply chain'_concat_of_last _ _ _ h1
    intro a ha
    rw [lastD_of_getLast _ _ ha]
    linarith
  · show (p.dist_m ++ [lastD p.dist_m + dist_step]).Chain' (· ≤ ·)
    apply chain'_concat_of_last _ _ _ h2
    intro a ha
    rw [lastD_of_getLast _ _ ha]
    linarith
  · show (p.battery_pct ++ [lastD p.battery_pct - battery_drain]).Chain' (fun a b => b ≤ a)
    apply chain'_concat_of_last _ _ _ h3
    intro a ha
    show lastD p.battery_pct - battery_drain ≤ a
    rw [lastD_of_getLast _ _ ha]
    linarith

theorem record_step_alt_last (p : FlightPath) (dt dist_step alt_step ias battery_drain : ℝ) :
    lastD (p.record_step dt dist_step alt_step ias battery_drain).alt_ft =
      lastD p.alt_ft + alt_step :=
  lastD_concat _ _

theorem pathMono_init : PathMono FlightPath.init :=
  ⟨List.chain'_singleton _, List.chain'_singleton _, List.chain'_singleton _⟩

theorem lastD_init_alt : lastD FlightPath.init.alt_ft = 1 := by
  simp [lastD, FlightPath.init]

/-- The ISA density is positive for altitudes below the 45000 ft ceiling
(13716 m): the temperature and the pressure base both stay positive there. -/
theorem isa_rho_pos (alt_m : ℝ) (h : alt_m < 13716) : 0 < isa_rho alt_m := by
  unfold isa_rho
  have htemp : 0 < 288.15 - 0.0065 * alt_m := by linarith
  have hbase : 0 < 1 - 0.0065 * alt_m / 288.15 := by
    rw [sub_pos, div_lt_one (by norm_num : (0:ℝ) < 288.15)]
    linarith
  exact div_pos (mul_pos (by norm_num) (Real.rpow_pos_of_pos hbase _))
    (mul_pos (by norm_num) htemp)

/-- One executed climb step preserves the monotonicity invariant and lifts
the last altitude sample by exactly 250 ft. -/
theorem climb_step_inv (ac : Aircraft) (weight_n total_energy_j : ℝ) (p : FlightPath)
    (hW : 0 < weight_n) (hpw : 0 ≤ ac.edf.power_w) (hE : 0 < total_energy_j)
    (hvy : 0 ≤ ac.vy_ias_mps) (halt : lastD p.alt_ft < 45000)
    (hex : 0 < climb_excess_power ac weight_n p) (hm : PathMono p) :
    PathMono (climb_step ac weight_n total_energy_j p) ∧
    lastD (climb_step ac weight_n total_energy_j p).alt_ft = lastD p.alt_ft + 250 := by
  have hrho : 0 < climb_rho p := by
    unfold climb_rho
    exact isa_rho_pos _ (by linarith)
  have hroc : 0 < climb_excess_power ac weight_n p / weight_n := div_pos hex hW
  have hdt : 0 ≤ 250 * 0.3048 / (climb_excess_power ac weight_n p / weight_n) :=
    le_of_lt (div_pos (by norm_num) hroc)
  have hm1 : PathMono (if p.climb_rate_fpm = 0 then
      { p with climb_rate_fpm := climb_excess_power ac weight_n p / weight_n * 196.85 }
      else p) := by
    split_ifs with hc
    · exact hm
    · exact hm
  constructor
  · simp only [climb_step]
    apply record_step_mono _ _ _ _ _ _ hm1 hdt
    · exact mul_nonneg (mul_nonneg hvy (Real.sqrt_nonneg _)) hdt
    · have hpae : 0 ≤ climb_power_available_elec ac p :=
        mul_nonneg hpw (div_nonneg hrho.le (by norm_num))
      exact mul_nonneg (div_nonneg (mul_nonneg hpae hdt) hE.le) (by norm_num)
  · simp only [climb_step]
    rw [record_step_alt_last]
    congr 1
    split_ifs <;> rfl

/-- The climb loop preserves monotonicity and a non-negative last altitude,
for every fuel. -/
theorem climb_loop_inv (ac : Aircraft) (weight_n total_energy_j : ℝ)
    (hW : 0 < weight_n) (hpw : 0 ≤ ac.edf.power_w) (hE : 0 < total_energy_j)
    (hvy : 0 ≤ ac.vy_ias_mps) :
    ∀ (fuel : ℕ) (p : FlightPath), PathMono p → 0 ≤ lastD p.alt_ft →
      PathMono (climb_loop ac weight_n total_energy_j fuel p) ∧
      0 ≤ lastD (climb_loop ac weight_n total_energy_j fuel p).alt_ft := by
  intro fuel
  induction fuel with
  | zero =>
    intro p hm ha
    exact ⟨hm, ha⟩
  | succ f ih =>
    intro p hm ha
    rw [climb_loop]
    by_cases hcond : 75 < lastD p.battery_pct ∧ lastD p.alt_ft < 45000
    · rw [if_pos hcond]
      by_cases hex : climb_excess_power ac weight_n p ≤ 0
      · rw [if_pos hex]
        exact ⟨hm, ha⟩
      · rw [if_neg hex]
        push_neg at hex
        obtain ⟨hm1, halt1⟩ :=
          climb_step_inv ac weight_n total_energy_j p hW hpw hE hvy hcond.2 hex hm
        exact ih _ hm1 (by rw [halt1]; linarith)
    · rw [if_neg hcond]
      exact ⟨hm, ha⟩

/-- The cruise phase preserves monotonicity and the altitude invariant. -/
theorem cruise_phase_inv (ac : Aircraft) (weight_n total_energy_j : ℝ) (p : FlightPath)
    (hE : 0 < total_energy_j) (hcm : 0 ≤ ac.cruise_ias_mps)
    (hm : PathMono p) (ha : 0 ≤ lastD p.alt_ft) :
    PathMono (cruise_phase ac weight_n total_energy_j p) ∧
    0 ≤ lastD (cruise_phase ac weight_n total_energy_j p).alt_ft := by
  simp only [cruise_phase]
  by_cases hu : 0 < (lastD p.battery_pct - 10.0) / 100.0 * total_energy_j
  · rw [if_pos hu]
    by_cases hpr : 0 < cruise_power_req_elec ac weight_n p
    · rw [if_pos hpr]
      have hb10 : 0 < lastD p.battery_pct - 10.0 := by
        by_contra hb
        push_neg at hb
        have hq : (lastD p.battery_pct - 10.0) / 100.0 ≤ 0 := by linarith
        have := mul_nonpos_of_nonpos_of_nonneg hq hE.le
        linarith
      have hm1 : PathMono
          { p with cruise_power_pct := cruise_power_req_elec ac weight_n p / ac.edf.power_w * 100 } :=
        hm
      have hdt : 0 ≤ (lastD p.battery_pct - 10.0) / 100.0 * total_energy_j /
          cruise_power_req_elec ac weight_n p := le_of_lt (div_pos hu hpr)
      constructor
      · apply record_step_mono _ _ _ _ _ _ hm1 hdt
        · exact mul_nonneg (div_nonneg hcm (Real.sqrt_nonneg _)) hdt
        · show (0:ℝ) ≤ lastD p.battery_pct - 10.0
          linarith
      · rw [record_step_alt_last]
        show (0:ℝ) ≤ lastD p.alt_ft + 0
        linarith
    · rw [if_neg hpr]
      exact ⟨hm, ha⟩
  · rw [if_neg hu]
    exact ⟨hm, ha⟩

/-- The descent phase preserves monotonicity (its battery drain is zero and
its time and distance steps are non-negative from a non-negative altitude). -/
theorem descent_phase_mono (ac : Aircraft) (p : FlightPath)
    (hld : 0 < ac.ld) (hm : PathMono p) (ha : 0 ≤ lastD p.alt_ft) :
    PathMono (descent_phase ac p) := by
  simp only [descent_phase]
  apply record_step_mono _ _ _ _ _ _ hm
  · split_ifs with hs
    · exact div_nonneg (mul_nonneg ha (by norm_num)) hs.le
    · exact le_rfl
  · rw [Real.tan_arctan]
    exact div_nonneg (mul_nonneg ha (by norm_num)) (le_of_lt (one_div_pos.mpr hld))
  · exact le_rfl

/-- A successful construction yields exactly the `aircraftOf` record. -/
theorem mkAircraft_eq_of_ok (e : EDF) (b : Battery) (p : FixedWingParameters)
    (ac : Aircraft) (hok : mkAircraft e b p = Except.ok ac) :
    ac = aircraftOf e b p := by
  unfold mkAircraft at hok
  cases hc : b.check_power_output e.power_w with
  | error msg => rw [hc] at hok; simp at hok
  | ok u =>
    rw [hc] at hok
    injection hok with h
    exact h.symm

/-- The full mission simulation preserves monotonicity for an aircraft whose
basic derived quantities are physically signed. -/
theorem run_mission_simulation_mono (ac : Aircraft)
    (hmtow : 0 < ac.mtow_kg) (hpw : 0 ≤ ac.edf.power_w)
    (hE : 0 < ac.battery.total_energy_j) (hvr : 0 ≤ ac.vr_ias_mps)
    (hvy : 0 ≤ ac.vy_ias_mps) (hcm : 0 ≤ ac.cruise_ias_mps) (hld : 0 < ac.ld) :
    PathMono (run_mission_simulation ac) := by
  have hW : 0 < ac.mtow_kg * 9.80665 := mul_pos hmtow (by norm_num)
  simp only [run_mission_simulation]
  cases hto : calculate_takeoff_distance ac 0.04 with
  | none => exact pathMono_init
  | some pr =>
    obtain ⟨d, t⟩ := pr
    unfold calculate_takeoff_distance at hto
    by_cases hnet : takeoff_net_force ac 0.04 ≤ 0
    · rw [if_pos hnet] at hto
      simp at hto
    · rw [if_neg hnet] at hto
      push_neg at hnet
      simp only [Option.some.injEq, Prod.mk.injEq] at hto
      obtain ⟨hd, ht⟩ := hto
      have hacc : 0 < takeoff_net_force ac 0.04 / ac.mtow_kg := div_pos hnet hmtow
      have hdt : 0 ≤ t := by
        rw [← ht]
        exact div_nonneg hvr hacc.le
      have hds : 0 ≤ d := by
        rw [← hd]
        exact div_nonneg (sq_nonneg _) (by linarith)
      have hdr : 0 ≤ ac.edf.power_w * t / ac.battery.total_energy_j * 100 :=
        mul_nonneg (div_nonneg (mul_nonneg hpw hdt) hE.le) (by norm_num)
      have hstep := record_step_mono FlightPath.init t d 0 (ac.vr_ias_mps * 1.94384)
        (ac.edf.power_w * t / ac.battery.total_energy_j * 100) pathMono_init hdt hds hdr
      have hstep_alt : 0 ≤ lastD (FlightPath.init.record_step t d 0
          (ac.vr_ias_mps * 1.94384)
          (ac.edf.power_w * t / ac.battery.total_energy_j * 100)).alt_ft := by
        rw [record_step_alt_last, lastD_init_alt]
        norm_num
      have hclimb := climb_loop_inv ac (ac.mtow_kg * 9.80665) ac.battery.total_energy_j
        hW hpw hE hvy 200 _ hstep hstep_alt
      have hcruise := cruise_phase_inv ac (ac.mtow_kg * 9.80665) ac.battery.total_energy_j
        _ hE hcm hclimb.1 hclimb.2
      exact descent_phase_mono ac _ hld hcruise.1 hcruise.2

/-- C4: for every resolved (successfully constructed, physically valid)
`Aircraft` whose takeoff succeeds (positive net accelerating force), the
`FlightPath` produced by `run_mission_simulation` has non-decreasing `time_s`
and `dist_m` sequences, and a `battery_pct` sequence that is non-increasing
up to and including the final (descent) sample. -/
theorem c4_mission_path_monotone (e : EDF) (b : Battery) (p : FixedWingParameters)
    (ac : Aircraft) (hok : mkAircraft e b p = Except.ok ac)
    (hp : 0 < e.power_w) (hew : 0 ≤ e.weight_kg) (hbw : 0 ≤ b.weight_kg)
    (hE : 0 < b.total_energy_j)
    (h0 : 0 ≤ p.endurance_percent) (h1 : p.endurance_percent ≤ 100)
    (htake : 0 < takeoff_net_force ac 0.04) :
    (run_mission_simulation ac).time_s.Chain' (· ≤ ·) ∧
    (run_mission_simulation ac).dist_m.Chain' (· ≤ ·) ∧
    (run_mission_simulation ac).battery_pct.Chain' (fun x y => y ≤ x) := by
  have hac := mkAircraft_eq_of_ok e b p ac hok
  subst hac
  obtain ⟨hmtow, hW, hld, hcm, harea, hstall, hvr, hvy, hgl⟩ :=
    aircraftOf_pos e b p hp hew hbw h0 h1
  have hEac : 0 < (aircraftOf e b p).battery.total_energy_j := by
    rw [aircraftOf_battery]; exact hE
  have hpw : 0 ≤ (aircraftOf e b p).edf.power_w := by
    rw [aircraftOf_edf]; exact hp.le
  exact run_mission_simulation_mono _ hmtow hpw hEac hvr.le hvy.le hcm.le hld

/-- Witness for `c4_mission_path_monotone`: a 1 kW EDF with 100 N of static
thrust on a 6 kg aircraft takes off and flies a monotone mission. -/
theorem c4_mission_path_monotone_witness :
    (mkAircraft (⟨1000, 100, 1, 0.1⟩ : EDF) (Battery.make 1 30 500 22.2 1)
        (⟨50⟩ : FixedWingParameters)
      = Except.ok (aircraftOf ⟨1000, 100, 1, 0.1⟩ (Battery.make 1 30 500 22.2 1) ⟨50⟩) ∧
      (0:ℝ) < (⟨1000, 100, 1, 0.1⟩ : EDF).power_w ∧
      (0:ℝ) ≤ (⟨1000, 100, 1, 0.1⟩ : EDF).weight_kg ∧
      (0:ℝ) ≤ (Battery.make 1 30 500 22.2 1).weight_kg ∧
      (0:ℝ) < (Battery.make 1 30 500 22.2 1).total_energy_j ∧
      (0:ℝ) ≤ (⟨50⟩ : FixedWingParameters).endurance_percent ∧
      (⟨50⟩ : FixedWingParameters).endurance_percent ≤ 100 ∧
      0 < takeoff_net_force
        (aircraftOf ⟨1000, 100, 1, 0.1⟩ (Battery.make 1 30 500 22.2 1) ⟨50⟩) 0.04) ∧
    ((run_mission_simulation
        (aircraftOf ⟨1000, 100, 1, 0.1⟩ (Battery.make 1 30 500 22.2 1) ⟨50⟩)).time_s.Chain'
        (· ≤ ·) ∧
      (run_mission_simulation
        (aircraftOf ⟨1000, 100, 1, 0.1⟩ (Battery.make 1 30 500 22.2 1) ⟨50⟩)).dist_m.Chain'
        (· ≤ ·) ∧
      (run_mission_simulation
        (aircraftOf ⟨1000, 100, 1, 0.1⟩ (Battery.make 1 30 500 22.2 1) ⟨50⟩)).battery_pct.Chain'
        (fun x y => y ≤ x)) := by
  have hok := mkAircraft_ok (⟨1000, 100, 1, 0.1⟩ : EDF) (Battery.make 1 30 500 22.2 1)
    (⟨50⟩ : FixedWingParameters) (by norm_num [Battery.make])
  have hnet : 0 < takeoff_net_force
      (aircraftOf ⟨1000, 100, 1, 0.1⟩ (Battery.make 1 30 500 22.2 1) ⟨50⟩) 0.04 := by
    rw [takeoff_net_force_aircraftOf _ _ _ (by norm_num) (by norm_num)
      (by norm_num [Battery.make]) (by norm_num) (by norm_num) 0.04]
    rw [aircraftOf_weight_n, aircraftOf_mtow, aircraftOf_ld]
    norm_num [Battery.make]
  exact ⟨⟨hok, by norm_num, by norm_num, by norm_num [Battery.make],
      by norm_num [Battery.make], by norm_num, by norm_num, hnet⟩,
    c4_mission_path_monotone _ _ _ _ hok (by norm_num) (by norm_num)
      (by norm_num [Battery.make]) (by norm_num [Battery.make]) (by norm_num)
      (by norm_num) hnet⟩

/-! Lemmas for the `design_from_mission` claim. -/

theorem dfm_step_eq (params : FixedWingParameters) (rules : Rules) (battery : Battery)
    (initial g : ℝ) :
    (aircraftOf (EDF.from_power (dfm_required_power params rules initial g))
      battery params).mtow_kg = dfm_step params rules battery initial g := rfl

/-- The loop of `design_from_mission`, entered at iteration `j` with fuel `f`
(`f + j = 15`) and the guess sequence's value, returns without raising after
`k - j + 1` further iterations for some `k < 15`, delivering the aircraft of
iteration `k`; `k` either satisfies the 1% convergence test or is the final
iteration 14. -/
theorem dfm_loop_spec (params : FixedWingParameters) (rules : Rules) (battery : Battery)
    (initial : ℝ)
    (hB : ∀ k, k < 15 → 1.2 * dfm_required_power params rules initial
      (dfm_guess params rules battery initial k) ≤ battery.max_power_w) :
    ∀ (f j : ℕ), f + j = 15 → 0 < f →
      ∃ k, j ≤ k ∧ k < 15 ∧
        dfm_loop params rules battery initial f (dfm_guess params rules battery initial j) =
          Except.ok (dfm_aircraft params rules battery initial
            (dfm_guess params rules battery initial k), k - j + 1) ∧
        (|dfm_step params rules battery initial (dfm_guess params rules battery initial k) -
            dfm_guess params rules battery initial k| /
            dfm_guess params rules battery initial k < 0.01 ∨ k = 14) := by
  intro f
  induction f with
  | zero =>
    intro j hfj hpos
    exact absurd hpos (lt_irrefl 0)
  | succ f ih =>
    intro j hfj hpos
    have hj : j < 15 := by omega
    have hmk := mkAircraft_ok
      (EDF.from_power (dfm_required_power params rules initial
        (dfm_guess params rules battery initial j))) battery params
      (by
        show ¬battery.max_power_w < dfm_required_power params rules initial
          (dfm_guess params rules battery initial j) * 1.2
        have := hB j hj
        linarith)
    rw [dfm_loop]
    simp only [hmk]
    rw [dfm_step_eq]
    by_cases hconv : |dfm_step params rules battery initial
        (dfm_guess params rules battery initial j) -
        dfm_guess params rules battery initial j| /
        dfm_guess params rules battery initial j < 0.01
    · refine ⟨j, le_rfl, hj, ?_, Or.inl hconv⟩
      rw [if_pos hconv, Nat.sub_self]
      rfl
    · rw [if_neg hconv]
      by_cases hf0 : f = 0
      · subst hf0
        have hj14 : j = 14 := by omega
        subst hj14
        rw [if_pos rfl]
        refine ⟨14, le_rfl, by omega, ?_, Or.inr rfl⟩
        rw [Nat.sub_self]
        rfl
      · rw [if_neg hf0]
        have hg : dfm_guess params rules battery initial j * 0.5 +
            dfm_step params rules battery initial
              (dfm_guess params rules battery initial j) * 0.5 =
            dfm_guess params rules battery initial (j + 1) := rfl
        rw [hg]
        obtain ⟨k, hk1, hk2, hk3, hk4⟩ := ih (j + 1) (by omega) (by omega)
        refine ⟨k, by omega, hk2, ?_, hk4⟩
        simp only [hk3]
        have harith : k - (j + 1) + 1 + 1 = k - j + 1 := by omega
        rw [harith]

/-- C2: for a mission spec respecting its class invariant, a positive
cruise-power target, a positive initial MTOW guess, and a battery able to
supply 1.2 times the rated power of every propulsor sized along the
iteration, `design_from_mission` raises nothing and returns an aircraft after
at most 15 iterations: either one whose MTOW differs from the guess of the
returning iteration by less than 1% relative, or the aircraft of the final
(15th) iteration. -/
theorem c2_design_from_mission (params : FixedWingParameters) (rules : Rules)
    (initial_mtow_guess_kg : ℝ) (battery : Battery)
    (h0 : 0 ≤ params.endurance_percent) (h1 : params.endurance_percent ≤ 100)
    (hr : 0 < rules.cruise_power_target) (hi : 0 < initial_mtow_guess_kg)
    (hB : ∀ k, k < 15 → 1.2 * dfm_required_power params rules initial_mtow_guess_kg
      (dfm_guess params rules battery initial_mtow_guess_kg k) ≤ battery.max_power_w) :
    ∃ k, k < 15 ∧
      design_from_mission params rules initial_mtow_guess_kg battery =
        Except.ok (dfm_aircraft params rules battery initial_mtow_guess_kg
          (dfm_guess params rules battery initial_mtow_guess_kg k), k + 1) ∧
      (|dfm_step params rules battery initial_mtow_guess_kg
          (dfm_guess params rules battery initial_mtow_guess_kg k) -
          dfm_guess params rules battery initial_mtow_guess_kg k| /
          dfm_guess params rules battery initial_mtow_guess_kg k < 0.01 ∨ k = 14) := by
  obtain ⟨k, hk0, hk15, heq, hconv⟩ :=
    dfm_loop_spec params rules battery initial_mtow_guess_kg hB 15 0 (by omega) (by omega)
  exact ⟨k, hk15, heq, hconv⟩

/-! Bounds on the `design_from_mission` fixture, establishing that the huge
test battery passes the power check at every iteration. -/

theorem rpow_three_quarters_le (x : ℝ) (hx : 0 ≤ x) : x ^ (0.75:ℝ) ≤ 1 + x := by
  rcases le_or_lt x 1 with h | h
  · have := Real.rpow_le_one hx h (by norm_num : (0:ℝ) ≤ 0.75)
    linarith
  · have h2 := Real.rpow_le_rpow_of_exponent_le h.le (show (0.75:ℝ) ≤ 1 by norm_num)
    rw [Real.rpow_one] at h2
    linarith

theorem c2w_cruise_bounds :
    0 ≤ dfm_cruise_ias_mps c2_params c2_rules 10 ∧
    dfm_cruise_ias_mps c2_params c2_rules 10 ≤ 2039 := by
  obtain ⟨hest1, hest2⟩ := estimate_cruise_bounds (dfm_notional_power c2_rules 10) c2_params
    (by norm_num [c2_params]) (by norm_num [c2_params])
  unfold dfm_cruise_ias_mps
  constructor
  · exact mul_nonneg hest1.le (by norm_num)
  · nlinarith

theorem c2w_eff_lower : (0.1:ℝ) ≤ dfm_propulsive_eff c2_params c2_rules 10 := by
  unfold dfm_propulsive_eff EDF.get_propulsive_efficiency
  exact le_max_left _ _

theorem c2w_power_bound (g : ℝ) (hg : 0 ≤ g) :
    0 ≤ dfm_required_power c2_params c2_rules 10 g ∧
    dfm_required_power c2_params c2_rules 10 g ≤ 43000 * g := by
  obtain ⟨hcm0, hcm2⟩ := c2w_cruise_bounds
  have heff1 := c2w_eff_lower
  have heff0 : (0:ℝ) ≤ dfm_propulsive_eff c2_params c2_rules 10 :=
    le_trans (by norm_num) heff1
  have hPe : dfm_required_power c2_params c2_rules 10 g =
      (g * 9.80665) / (7.0 + 50 / 100.0 * 5.0) * dfm_cruise_ias_mps c2_params c2_rules 10 /
        dfm_propulsive_eff c2_params c2_rules 10 / (50 / 100) := rfl
  have hA0 : 0 ≤ (g * 9.80665) / (7.0 + 50 / 100.0 * 5.0) := by positivity
  have haero0 : 0 ≤ (g * 9.80665) / (7.0 + 50 / 100.0 * 5.0) *
      dfm_cruise_ias_mps c2_params c2_rules 10 := mul_nonneg hA0 hcm0
  constructor
  · rw [hPe]
    exact div_nonneg (div_nonneg haero0 heff0) (by norm_num)
  · rw [hPe]
    have haero2 : (g * 9.80665) / (7.0 + 50 / 100.0 * 5.0) *
        dfm_cruise_ias_mps c2_params c2_rules 10 ≤
        (g * 9.80665) / (7.0 + 50 / 100.0 * 5.0) * 2039 :=
      mul_le_mul_of_nonneg_left hcm2 hA0
    have helec : (g * 9.80665) / (7.0 + 50 / 100.0 * 5.0) *
        dfm_cruise_ias_mps c2_params c2_rules 10 /
        dfm_propulsive_eff c2_params c2_rules 10 ≤
        (g * 9.80665) / (7.0 + 50 / 100.0 * 5.0) *
        dfm_cruise_ias_mps c2_params c2_rules 10 / 0.1 :=
      div_le_div_of_nonneg_left haero0 (by norm_num) heff1
    have helec2 : (g * 9.80665) / (7.0 + 50 / 100.0 * 5.0) *
        dfm_cruise_ias_mps c2_params c2_rules 10 / 0.1 ≤
        (g * 9.80665) / (7.0 + 50 / 100.0 * 5.0) * 2039 / 0.1 :=
      (div_le_div_iff_of_pos_right (by norm_num)).mpr haero2
    have hmono : (g * 9.80665) / (7.0 + 50 / 100.0 * 5.0) *
        dfm_cruise_ias_mps c2_params c2_rules 10 /
        dfm_propulsive_eff c2_params c2_rules 10 / (50 / 100) ≤
        (g * 9.80665) / (7.0 + 50 / 100.0 * 5.0) * 2039 / 0.1 / (50 / 100) :=
      (div_le_div_iff_of_pos_right (by norm_num)).mpr (le_trans helec helec2)
    have hfinal : (g * 9.80665) / (7.0 + 50 / 100.0 * 5.0) * 2039 / 0.1 / (50 / 100) ≤
        43000 * g := by
      have h95 : (7.0 + 50 / 100.0 * 5.0 : ℝ) = 9.5 := by norm_num
      rw [h95, div_div, div_le_iff (by norm_num : (0:ℝ) < 0.1 * (50 / 100)),
        div_mul_eq_mul_div, div_le_iff (by norm_num : (0:ℝ) < 9.5)]
      nlinarith
    linarith

theorem c2w_step_bound (g : ℝ) (hg : 0 ≤ g) :
    0 ≤ dfm_step c2_params c2_rules c2_battery 10 g ∧
    dfm_step c2_params c2_rules c2_battery 10 g ≤ 1 + 2000 * g := by
  obtain ⟨hP0, hP2⟩ := c2w_power_bound g hg
  have hstep : dfm_step c2_params c2_rules c2_battery 10 g =
      (0.05 + 0.020 * (dfm_required_power c2_params c2_rules 10 g) ^ (0.75:ℝ)) + 0 * 1 +
        (0.4 + ((0.05 + 0.020 * (dfm_required_power c2_params c2_rules 10 g) ^ (0.75:ℝ)) +
          0 * 1) * 0.8) +
        0.20 * (dfm_required_power c2_params c2_rules 10 g / 100) := rfl
  have hr75 := rpow_three_quarters_le _ hP0
  have hr0 : 0 ≤ (dfm_required_power c2_params c2_rules 10 g) ^ (0.75:ℝ) :=
    Real.rpow_nonneg hP0 _
  rw [hstep]
  constructor
  · linarith
  · linarith

theorem c2w_guess_bound (k : ℕ) :
    0 ≤ dfm_guess c2_params c2_rules c2_battery 10 k ∧
    dfm_guess c2_params c2_rules c2_battery 10 k ≤ 11 * 1100 ^ k := by
  induction k with
  | zero =>
    constructor
    · norm_num [dfm_guess]
    · norm_num [dfm_guess]
  | succ k ih =>
    obtain ⟨ih0, ih1⟩ := ih
    obtain ⟨hs0, hs1⟩ := c2w_step_bound _ ih0
    have hpow1 : (1:ℝ) ≤ 1100 ^ k := one_le_pow₀ (by norm_num)
    rw [dfm_guess, pow_succ]
    constructor
    · linarith
    · nlinarith

theorem c2w_check_passes : ∀ k, k < 15 →
    1.2 * dfm_required_power c2_params c2_rules 10
      (dfm_guess c2_params c2_rules c2_battery 10 k) ≤ c2_battery.max_power_w := by
  intro k hk
  obtain ⟨hg0, hg1⟩ := c2w_guess_bound k
  obtain ⟨hP0, hP1⟩ := c2w_power_bound _ hg0
  have hmp : c2_battery.max_power_w = (10:ℝ) ^ 59 * 1 * 10 := rfl
  have hpowk : (1100:ℝ) ^ k ≤ 1100 ^ 14 := pow_le_pow_right₀ (by norm_num) (by omega)
  have hfinal : (567600:ℝ) * 1100 ^ 14 ≤ 10 ^ 59 * 1 * 10 := by norm_num
  rw [hmp]
  nlinarith

/-- Witness for `c2_design_from_mission` on the fixture: a 50%-endurance
spec, a 50% cruise-power target, a 10 kg initial guess, and the huge test
battery. -/
theorem c2_design_from_mission_witness :
    ((0:ℝ) ≤ c2_params.endurance_percent ∧ c2_params.endurance_percent ≤ 100 ∧
      (0:ℝ) < c2_rules.cruise_power_target ∧ (0:ℝ) < 10 ∧
      (∀ k, k < 15 → 1.2 * dfm_required_power c2_params c2_rules 10
        (dfm_guess c2_params c2_rules c2_battery 10 k) ≤ c2_battery.max_power_w)) ∧
    (∃ k, k < 15 ∧
      design_from_mission c2_params c2_rules 10 c2_battery =
        Except.ok (dfm_aircraft c2_params c2_rules c2_battery 10
          (dfm_guess c2_params c2_rules c2_battery 10 k), k + 1) ∧
      (|dfm_step c2_params c2_rules c2_battery 10
          (dfm_guess c2_params c2_rules c2_battery 10 k) -
          dfm_guess c2_params c2_rules c2_battery 10 k| /
          dfm_guess c2_params c2_rules c2_battery 10 k < 0.01 ∨ k = 14)) :=
  ⟨⟨by norm_num [c2_params], by norm_num [c2_params], by norm_num [c2_rules],
      by norm_num, c2w_check_passes⟩,
    c2_design_from_mission c2_params c2_rules 10 c2_battery (by norm_num [c2_params])
      (by norm_num [c2_params]) (by norm_num [c2_rules]) (by norm_num) c2w_check_passes⟩

end UAV

end
